import Mathlib

/-!
Verification development for the NotifyOps event pipeline.

Go source is modelled by a shallow embedding: Go byte slices become
`List Nat` (each element < 256), Go strings become Lean `String` (or
`List Nat` where the code works on raw bytes), fallible Go calls become
`Except`, and outbound network calls become explicit environment records
whose invocations are recorded in the result.
-/

/-! ## Byte-level helpers (crypto/sha256, crypto/hmac, encoding/hex) -/

/-- 32-bit word mask. -/
def w32 : Nat := 4294967296

/-- Right rotation of a 32-bit word. -/
def rotr32 (x n : Nat) : Nat := ((x >>> n) ||| (x <<< (32 - n))) % w32

/-- SHA-256 small sigma 0. -/
def ssig0 (x : Nat) : Nat := (rotr32 x 7) ^^^ (rotr32 x 18) ^^^ (x >>> 3)

/-- SHA-256 small sigma 1. -/
def ssig1 (x : Nat) : Nat := (rotr32 x 17) ^^^ (rotr32 x 19) ^^^ (x >>> 10)

/-- SHA-256 big sigma 0. -/
def bsig0 (x : Nat) : Nat := (rotr32 x 2) ^^^ (rotr32 x 13) ^^^ (rotr32 x 22)

/-- SHA-256 big sigma 1. -/
def bsig1 (x : Nat) : Nat := (rotr32 x 6) ^^^ (rotr32 x 11) ^^^ (rotr32 x 25)

/-- SHA-256 choice function. -/
def chFn (x y z : Nat) : Nat := (x &&& y) ^^^ ((x ^^^ 4294967295) &&& z)

/-- SHA-256 majority function. -/
def majFn (x y z : Nat) : Nat := (x &&& y) ^^^ (x &&& z) ^^^ (y &&& z)

/-- The 64 SHA-256 round constants. -/
def sha256K : List Nat :=
  [1116352408, 1899447441, 3049323471, 3921009573, 961987163,
   1508970993, 2453635748, 2870763221, 3624381080, 310598401,
   607225278, 1426881987, 1925078388, 2162078206, 2614888103,
   3248222580, 3835390401, 4022224774, 264347078, 604807628,
   770255983, 1249150122, 1555081692, 1996064986, 2554220882,
   2821834349, 2952996808, 3210313671, 3336571891, 3584528711,
   113926993, 338241895, 666307205, 773529912, 1294757372,
   1396182291, 1695183700, 1986661051, 2177026350, 2456956037,
   2730485921, 2820302411, 3259730800, 3345764771, 3516065817,
   3600352804, 4094571909, 275423344, 430227734, 506948616,
   659060556, 883997877, 958139571, 1322822218, 1537002063,
   1747873779, 1955562222, 2024104815, 2227730452, 2361852424,
   2428436474, 2756734187, 3204031479, 3329325298]

/-- SHA-256 initial hash state. -/
def sha256Init : List Nat :=
  [1779033703, 3144134277, 1013904242, 2773480762, 1359893119,
   2600822924, 528734635, 1541459225]

/-- Big-endian byte rendering of a value, `n` bytes wide. -/
def toBytesBE : Nat → Nat → List Nat
  | 0, _ => []
  | n + 1, v => toBytesBE n (v / 256) ++ [v % 256]

/-- Group a byte list into big-endian 32-bit words (length a multiple of 4). -/
def bytesToWordsBE : List Nat → List Nat
  | b0 :: b1 :: b2 :: b3 :: rest =>
      (((b0 * 256 + b1) * 256 + b2) * 256 + b3) :: bytesToWordsBE rest
  | _ => []

/-- SHA-256 message padding: `0x80`, zero fill to 56 mod 64, 8-byte bit length. -/
def sha256Pad (msg : List Nat) : List Nat :=
  let len := msg.length
  let zeros := (119 - len % 64) % 64
  msg ++ [0x80] ++ List.replicate zeros 0 ++ toBytesBE 8 (len * 8)

/-- Next word of the SHA-256 message schedule, extending from the tail. -/
def wNext (ws : List Nat) : Nat :=
  let n := ws.length
  (ssig1 (ws.getD (n - 2) 0) + ws.getD (n - 7) 0 + ssig0 (ws.getD (n - 15) 0) + ws.getD (n - 16) 0) % w32

/-- Extend the 16-word schedule by `k` further words. -/
def extendSchedule : Nat → List Nat → List Nat
  | 0, ws => ws
  | k + 1, ws => extendSchedule k (ws ++ [wNext ws])

/-- One SHA-256 compression round on the 8-word working state. -/
def sha256Round (st : List Nat) (k w : Nat) : List Nat :=
  match st with
  | [a, b, c, d, e, f, g, h] =>
      let t1 := (h + bsig1 e + chFn e f g + k + w) % w32
      let t2 := (bsig0 a + majFn a b c) % w32
      [(t1 + t2) % w32, a, b, c, (d + t1) % w32, e, f, g]
  | other => other

/-- Compress one 64-byte block into the hash state. -/
def sha256Compress (hs : List Nat) (block : List Nat) : List Nat :=
  let ws := extendSchedule 48 (bytesToWordsBE block)
  let st := (sha256K.zip ws).foldl (fun s kw => sha256Round s kw.1 kw.2) hs
  List.zipWith (fun x y => (x + y) % w32) hs st

/-- Split a (padded) byte list into 64-byte blocks; `fuel` bounds the
number of blocks. -/
def blocks64 : Nat → List Nat → List (List Nat)
  | 0, _ => []
  | fuel + 1, l => if l = [] then [] else l.take 64 :: blocks64 fuel (l.drop 64)

/-- SHA-256 of a byte list, returned as 32 bytes. -/
def sha256Bytes (msg : List Nat) : List Nat :=
  let padded := sha256Pad msg
  ((blocks64 padded.length padded).foldl sha256Compress sha256Init).flatMap (toBytesBE 4)

/-- HMAC-SHA256 with a 64-byte block size: keys longer than the block are
hashed first, then zero-padded to the block size. -/
def hmacSHA256 (key msg : List Nat) : List Nat :=
  let k0 := if key.length > 64 then sha256Bytes key else key
  let kb := k0 ++ List.replicate (64 - k0.length) 0
  let inner := sha256Bytes ((kb.map (fun b => b ^^^ 0x36)) ++ msg)
  sha256Bytes ((kb.map (fun b => b ^^^ 0x5c)) ++ inner)

/-- One lowercase hex digit (ASCII code) for a value below 16. -/
def hexDigit (n : Nat) : Nat := if n < 10 then 48 + n else 87 + n

/-- `hex.EncodeToString`: lowercase hex rendering of bytes, as ASCII codes. -/
def hexEncodeBytes (bs : List Nat) : List Nat :=
  bs.flatMap (fun b => [hexDigit (b / 16), hexDigit (b % 16)])

/-- ASCII bytes of the `"sha256="` header tag. -/
def sha256Tag : List Nat := [115, 104, 97, 50, 53, 54, 61]

/-- `verifySignature` from `internal/github/handler.go`: empty secret skips
verification; otherwise the header must carry the `sha256=` tag followed by
the hex HMAC-SHA256 of the payload under the secret. -/
def verifySignature (webhookSecret payload signature : List Nat) : Bool :=
  if webhookSecret = [] then true
  else if sha256Tag.isPrefixOf signature then
    hexEncodeBytes (hmacSHA256 webhookSecret payload) = signature.drop 7
  else false

/-! ## Go string helpers (strings, strconv) -/

/-- Whitespace recognised by `unicode.IsSpace` (ASCII range plus NEL/NBSP). -/
def isGoSpace (c : Char) : Bool :=
  c = ' ' || c = '\t' || c = '\n' || c.toNat = 11 || c.toNat = 12 || c = '\r' ||
  c.toNat = 0x85 || c.toNat = 0xA0

/-- `strings.TrimSpace`. -/
def goTrimSpace (s : String) : String :=
  ⟨((s.toList.dropWhile isGoSpace).reverse.dropWhile isGoSpace).reverse⟩

/-- `strings.HasPrefix`. -/
def goHasPre (s p : String) : Bool := p.toList.isPrefixOf s.toList

/-- `strings.HasSuffix`. -/
def goHasSuf (s p : String) : Bool := p.toList.isSuffixOf s.toList

/-- Drop the first `n` characters (Go slice `s[n:]` on ASCII text). -/
def goDropChars (s : String) : Nat → String := fun n => ⟨s.toList.drop n⟩

/-- Go runtime panics reached by the model. -/
inductive GoPanic where
  | nilPointerDeref
  | sliceOutOfRange
deriving Repr, DecidableEq

/-- Characters fitting in the first `n` bytes of the UTF-8 encoding (for
the ASCII hex SHAs this slices, characters coincide with bytes). -/
def utf8TakeChars : List Char → Nat → List Char
  | [], _ => []
  | c :: rest, n =>
      if c.utf8Size ≤ n then c :: utf8TakeChars rest (n - c.utf8Size) else []

/-- Go slice `s[:n]`: panics with a slice-bounds error when the string is
shorter than `n` bytes. -/
def goSlicePanic (s : String) (n : Nat) : Except GoPanic String :=
  if n ≤ s.utf8ByteSize then .ok ⟨utf8TakeChars s.toList n⟩ else .error .sliceOutOfRange

/-- Drop the last `n` characters. -/
def goDropLast (s : String) (n : Nat) : String := ⟨s.toList.take (s.toList.length - n)⟩

/-- `strings.Join`. -/
def goJoin (elems : List String) (sep : String) : String :=
  match elems with
  | [] => ""
  | e :: rest => rest.foldl (fun acc x => acc ++ sep ++ x) e

/-- Split at the first colon, if any. -/
def splitFirstColon : List Char → Option (List Char × List Char)
  | [] => none
  | c :: rest =>
      if c = ':' then some ([], rest)
      else (splitFirstColon rest).map (fun p => (c :: p.1, p.2))

/-- `strings.SplitN(s, ":", 2)`. -/
def goSplitNColon2 (s : String) : List String :=
  match splitFirstColon s.toList with
  | none => [s]
  | some (a, b) => [⟨a⟩, ⟨b⟩]

/-- `strconv.Atoi`: optional sign, all decimal digits, 64-bit range. -/
def goAtoi (s : String) : Except Unit Int :=
  let p : Bool × List Char :=
    match s.toList with
    | '+' :: r => (false, r)
    | '-' :: r => (true, r)
    | r => (false, r)
  if p.2 = [] then .error ()
  else if p.2.all Char.isDigit then
    let n : Nat := p.2.foldl (fun acc c => acc * 10 + (c.toNat - 48)) 0
    let v : Int := if p.1 then -(n : Int) else (n : Int)
    if -(2 ^ 63) ≤ v ∧ v ≤ 2 ^ 63 - 1 then .ok v else .error ()
  else .error ()

/-- Word separator as in `strings.Title` (ASCII part of `isSeparator`). -/
def goIsSep (c : Char) : Bool :=
  if c.toNat ≤ 0x7F then !(c.isAlphanum || c = '_') else false

/-- Character stream of `strings.Title`: uppercase a letter that follows a
separator (the previous character starts out as a space). -/
def goTitleChars : List Char → Char → List Char
  | [], _ => []
  | c :: rest, prev =>
      (if goIsSep prev then c.toUpper else c) :: goTitleChars rest c

/-- `strings.Title`. -/
def goStringsTitle (s : String) : String := ⟨goTitleChars s.toList ' '⟩

/-- `strings.EqualFold`, ASCII case folding. -/
def goEqualFold (a b : String) : Bool :=
  a.toList.map Char.toLower = b.toList.map Char.toLower

/-- Round to the nearest integer, ties to even (Go `fmt` `%.0f`). -/
def roundHalfEven (q : ℚ) : ℤ :=
  let f := ⌊q⌋
  let r := q - f
  if r < 1 / 2 then f
  else if r > 1 / 2 then f + 1
  else if f % 2 = 0 then f else f + 1

/-- `fmt.Sprintf("%.0f%%", q*100)`. -/
def goFmtPercent (q : ℚ) : String := toString (roundHalfEven (q * 100)) ++ "%"

/-! ## Data model (internal/github) -/

/-- Repository fields used by the pipeline (`github.Repository`, getters
flattened to their zero-value-safe results). -/
structure GhRepo where
  fullName : String
  owner : String
  name : String
deriving Repr, DecidableEq

/-- Issue fields used by the pipeline (`github.Issue`). `createdAt` holds the
RFC3339 rendering produced by `Format(time.RFC3339)`. -/
structure GhIssue where
  number : Int
  title : String
  state : String
  userLogin : String
  createdAt : String
  assignee : Option String
  labels : List String
  body : String
  htmlUrl : String
  repository : Option GhRepo
deriving Repr, DecidableEq

/-- Comment fields used by the pipeline (`github.IssueComment`). -/
structure GhComment where
  userLogin : String
  createdAt : String
  body : String
deriving Repr, DecidableEq

/-- Commit fields used by the pipeline (`github.RepositoryCommit`). -/
structure GhCommit where
  sha : String
  authorName : String
  message : String
deriving Repr, DecidableEq

/-- Changed-file fields used by the pipeline (`github.CommitFile`). -/
structure GhFile where
  filename : String
  status : String
  additions : Int
  deletions : Int
  patch : String
deriving Repr, DecidableEq

/-- `IssueData` from `internal/github/handler.go`. -/
structure IssueData where
  issue : GhIssue
  comments : List GhComment
  commits : List GhCommit
  files : List GhFile
  repository : Option GhRepo
  eventType : String
  action : String
deriving Repr, DecidableEq

/-- Nil-safe `GetFullName` on a possibly-nil repository pointer. -/
def repoFullName (r : Option GhRepo) : String :=
  match r with
  | some repo => repo.fullName
  | none => ""

/-! ## JSON values and parsing (encoding/json) -/

/-- JSON values; object members keep source order and duplicates. -/
inductive JsonVal where
  | null
  | bool (b : Bool)
  | num (q : ℚ)
  | str (s : String)
  | arr (xs : List JsonVal)
  | obj (fields : List (String × JsonVal))
deriving Repr

/-- JSON structural whitespace. -/
def isJsonWs (c : Char) : Bool := c = ' ' || c = '\t' || c = '\n' || c = '\r'

/-- Skip JSON whitespace. -/
def skipJsonWs (cs : List Char) : List Char := cs.dropWhile isJsonWs

/-- Value of one hex digit. -/
def hexVal (c : Char) : Option Nat :=
  if '0' ≤ c ∧ c ≤ '9' then some (c.toNat - 48)
  else if 'a' ≤ c ∧ c ≤ 'f' then some (c.toNat - 87)
  else if 'A' ≤ c ∧ c ≤ 'F' then some (c.toNat - 55)
  else none

/-- Decode the body of a JSON string literal (opening quote consumed),
returning the characters and the remaining input. `\uXXXX` surrogate pairs
combine; lone surrogates become U+FFFD as in Go; `fuel` bounds the steps. -/
def parseStrChars : Nat → List Char → Option (List Char × List Char)
  | 0, _ => none
  | _, [] => none
  | fuel + 1, c :: rest =>
      if c = '"' then some ([], rest)
      else if c.toNat < 0x20 then none
      else if c = '\\' then
        match rest with
        | [] => none
        | e :: rest2 =>
            if e = 'u' then
              match rest2 with
              | h1 :: h2 :: h3 :: h4 :: rest3 =>
                  match hexVal h1, hexVal h2, hexVal h3, hexVal h4 with
                  | some a, some b, some cc, some d =>
                      let v := ((a * 16 + b) * 16 + cc) * 16 + d
                      if 0xD800 ≤ v ∧ v ≤ 0xDFFF then
                        match rest3 with
                        | '\\' :: 'u' :: g1 :: g2 :: g3 :: g4 :: rest4 =>
                            match hexVal g1, hexVal g2, hexVal g3, hexVal g4 with
                            | some a2, some b2, some c2, some d2 =>
                                let v2 := ((a2 * 16 + b2) * 16 + c2) * 16 + d2
                                if 0xD800 ≤ v ∧ v ≤ 0xDBFF ∧ 0xDC00 ≤ v2 ∧ v2 ≤ 0xDFFF then
                                  (parseStrChars fuel rest4).map (fun p =>
                                    (Char.ofNat (0x10000 + (v - 0xD800) * 0x400 + (v2 - 0xDC00)) :: p.1, p.2))
                                else
                                  (parseStrChars fuel rest3).map (fun p => (Char.ofNat 0xFFFD :: p.1, p.2))
                            | _, _, _, _ =>
                                (parseStrChars fuel rest3).map (fun p => (Char.ofNat 0xFFFD :: p.1, p.2))
                        | _ =>
                            (parseStrChars fuel rest3).map (fun p => (Char.ofNat 0xFFFD :: p.1, p.2))
                      else
                        (parseStrChars fuel rest3).map (fun p => (Char.ofNat v :: p.1, p.2))
                  | _, _, _, _ => none
              | _ => none
            else
              let esc : Option Char :=
                if e = '"' then some '"'
                else if e = '\\' then some '\\'
                else if e = '/' then some '/'
                else if e = 'b' then some (Char.ofNat 8)
                else if e = 'f' then some (Char.ofNat 12)
                else if e = 'n' then some '\n'
                else if e = 'r' then some '\r'
                else if e = 't' then some '\t'
                else none
              match esc with
              | some ec => (parseStrChars fuel rest2).map (fun p => (ec :: p.1, p.2))
              | none => none
      else
        (parseStrChars fuel rest).map (fun p => (c :: p.1, p.2))

/-- Leading run of decimal digits. -/
def takeDigits (cs : List Char) : List Char × List Char :=
  (cs.takeWhile Char.isDigit, cs.dropWhile Char.isDigit)

/-- Decimal digits to a natural number. -/
def digitsToNat (ds : List Char) : Nat :=
  ds.foldl (fun acc c => acc * 10 + (c.toNat - 48)) 0

/-- Parse a JSON number (strict grammar) as a rational. -/
def parseJsonNum (cs : List Char) : Option (ℚ × List Char) :=
  let sp : Bool × List Char := match cs with
    | '-' :: r => (true, r)
    | r => (false, r)
  let ip : Option (Nat × List Char) := match sp.2 with
    | '0' :: r => some (0, r)
    | c :: _ =>
        if '1' ≤ c ∧ c ≤ '9' then
          let d := takeDigits sp.2
          some (digitsToNat d.1, d.2)
        else none
    | [] => none
  match ip with
  | none => none
  | some (ival, r1) =>
      let fp : Option (ℚ × List Char) := match r1 with
        | '.' :: r2 =>
            let d := takeDigits r2
            if d.1 = [] then none
            else some ((digitsToNat d.1 : ℚ) / ((10 : ℚ) ^ d.1.length), d.2)
        | _ => some (0, r1)
      match fp with
      | none => none
      | some (fval, r3) =>
          let ep : Option (Int × List Char) := match r3 with
            | c :: r4 =>
                if c = 'e' ∨ c = 'E' then
                  let esp : Bool × List Char := match r4 with
                    | '-' :: r5 => (true, r5)
                    | '+' :: r5 => (false, r5)
                    | r5 => (false, r5)
                  let d := takeDigits esp.2
                  if d.1 = [] then none
                  else some (if esp.1 then -(digitsToNat d.1 : Int) else (digitsToNat d.1 : Int), d.2)
                else some (0, r3)
            | [] => some (0, r3)
          match ep with
          | none => none
          | some (e, r6) =>
              let mag : ℚ := ((ival : ℚ) + fval) * (10 : ℚ) ^ e
              some (if sp.1 then -mag else mag, r6)

mutual

/-- Parse one JSON value; `fuel` bounds the nesting depth. -/
def parseJsonVal : Nat → List Char → Option (JsonVal × List Char)
  | 0, _ => none
  | fuel + 1, cs =>
      match skipJsonWs cs with
      | [] => none
      | c :: rest =>
          if c = 'n' then
            match rest with
            | 'u' :: 'l' :: 'l' :: r => some (.null, r)
            | _ => none
          else if c = 't' then
            match rest with
            | 'r' :: 'u' :: 'e' :: r => some (.bool true, r)
            | _ => none
          else if c = 'f' then
            match rest with
            | 'a' :: 'l' :: 's' :: 'e' :: r => some (.bool false, r)
            | _ => none
          else if c = '"' then
            (parseStrChars (rest.length + 1) rest).map (fun p => (.str ⟨p.1⟩, p.2))
          else if c = '[' then
            match skipJsonWs rest with
            | ']' :: r => some (.arr [], r)
            | r1 => (parseJsonElems fuel r1).map (fun p => (.arr p.1, p.2))
          else if c = '{' then
            match skipJsonWs rest with
            | '}' :: r => some (.obj [], r)
            | r1 => (parseJsonMembers fuel r1).map (fun p => (.obj p.1, p.2))
          else if c = '-' ∨ c.isDigit then
            (parseJsonNum (c :: rest)).map (fun p => (.num p.1, p.2))
          else none

/-- Parse one or more array elements up to the closing bracket. -/
def parseJsonElems : Nat → List Char → Option (List JsonVal × List Char)
  | 0, _ => none
  | fuel + 1, cs =>
      match parseJsonVal fuel cs with
      | none => none
      | some (v, r1) =>
          match skipJsonWs r1 with
          | ']' :: r2 => some ([v], r2)
          | ',' :: r2 => (parseJsonElems fuel r2).map (fun p => (v :: p.1, p.2))
          | _ => none

/-- Parse one or more object members up to the closing brace. -/
def parseJsonMembers : Nat → List Char → Option (List (String × JsonVal) × List Char)
  | 0, _ => none
  | fuel + 1, cs =>
      match skipJsonWs cs with
      | '"' :: r0 =>
          match parseStrChars (r0.length + 1) r0 with
          | none => none
          | some (kcs, r1) =>
              match skipJsonWs r1 with
              | ':' :: r2 =>
                  match parseJsonVal fuel r2 with
                  | none => none
                  | some (v, r3) =>
                      match skipJsonWs r3 with
                      | '}' :: r4 => some ([(⟨kcs⟩, v)], r4)
                      | ',' :: r4 => (parseJsonMembers fuel r4).map (fun p => ((⟨kcs⟩, v) :: p.1, p.2))
                      | _ => none
              | _ => none
      | _ => none

end

/-- `json.Unmarshal` entry on text: one JSON value plus trailing whitespace. -/
def goJsonParse (s : String) : Option JsonVal :=
  let cs := s.toList
  match parseJsonVal (cs.length + 1) cs with
  | some (v, rest) => if skipJsonWs rest = [] then some v else none
  | none => none

/-! ## IssueSummary and parseSummaryResponse (internal/ai/summarizer.go) -/

/-- `IssueSummary` from `internal/ai/summarizer.go`. `ActionItems` is
`Option (List String)` to keep Go's nil-slice / empty-slice distinction;
`Confidence` models the `float64` as a rational. Only `SuggestedFix`
carries a json tag (`suggested_fix`). -/
structure IssueSummary where
  Title : String
  Summary : String
  Priority : String
  Category : String
  ActionItems : Option (List String)
  CodeContext : String
  Confidence : ℚ
  SuggestedFix : String
deriving Repr, DecidableEq

/-- The zero `IssueSummary`, as left by `var summary IssueSummary`. -/
def zeroSummary : IssueSummary :=
  { Title := "", Summary := "", Priority := "", Category := "",
    ActionItems := none, CodeContext := "", Confidence := 0, SuggestedFix := "" }

/-- Struct fields of `IssueSummary`. -/
inductive SummaryField where
  | title | summary | priority | category | actionItems | codeContext | confidence | suggestedFix
deriving Repr, DecidableEq

/-- Effective json names of the fields, in declaration order: the Go field
name, except for the tagged `SuggestedFix`. -/
def summaryFieldNames : List (SummaryField × String) :=
  [(.title, "Title"), (.summary, "Summary"), (.priority, "Priority"), (.category, "Category"),
   (.actionItems, "ActionItems"), (.codeContext, "CodeContext"), (.confidence, "Confidence"),
   (.suggestedFix, "suggested_fix")]

/-- `encoding/json` key resolution: exact name match first, then
case-insensitive match in field order. -/
def fieldForKey (k : String) : Option SummaryField :=
  match summaryFieldNames.find? (fun fn => fn.2 == k) with
  | some fn => some fn.1
  | none => (summaryFieldNames.find? (fun fn => goEqualFold fn.2 k)).map (fun fn => fn.1)

/-- Decode a JSON array into a `[]string` (null elements stay zero). -/
def jsonToStringList : List JsonVal → Option (List String)
  | [] => some []
  | .str s :: rest => (jsonToStringList rest).map (fun l => s :: l)
  | .null :: rest => (jsonToStringList rest).map (fun l => "" :: l)
  | _ => none

/-- Assign one object member into the struct: unknown keys are skipped,
`null` leaves the field unchanged, a type mismatch is an unmarshal error. -/
def setSummaryField (m : IssueSummary) (k : String) (v : JsonVal) : Except Unit IssueSummary :=
  match fieldForKey k with
  | none => .ok m
  | some f =>
      match f, v with
      | _, .null => .ok m
      | .title, .str s => .ok { m with Title := s }
      | .summary, .str s => .ok { m with Summary := s }
      | .priority, .str s => .ok { m with Priority := s }
      | .category, .str s => .ok { m with Category := s }
      | .codeContext, .str s => .ok { m with CodeContext := s }
      | .suggestedFix, .str s => .ok { m with SuggestedFix := s }
      | .actionItems, .arr xs =>
          match jsonToStringList xs with
          | some l => .ok { m with ActionItems := some l }
          | none => .error ()
      | .confidence, .num q => .ok { m with Confidence := q }
      | _, _ => .error ()

/-- `json.Unmarshal` of a JSON value into `IssueSummary`: the value must be
an object (or `null`, which leaves the zero struct); members are applied in
order, later duplicates overwriting earlier ones. -/
def unmarshalIssueSummary (v : JsonVal) : Except Unit IssueSummary :=
  match v with
  | .obj fs => fs.foldlM (fun m kv => setSummaryField m kv.1 kv.2) zeroSummary
  | .null => .ok zeroSummary
  | _ => .error ()

/-- Response cleanup in `parseSummaryResponse`: trim, strip a leading
markdown fence tag and a trailing fence, trim again. -/
def cleanResponse (response : String) : String :=
  let r1 := goTrimSpace response
  let r2 := if goHasPre r1 "```json" then goDropChars r1 7 else r1
  let r3 := if goHasSuf r2 "```" then goDropLast r2 3 else r2
  goTrimSpace r3

/-- The defaulting block of `parseSummaryResponse`, in source order. -/
def applySummaryDefaults (s0 : IssueSummary) : IssueSummary :=
  let s1 := if s0.Priority = "" then { s0 with Priority := "medium" } else s0
  let s2 := if s1.Category = "" then { s1 with Category := "other" } else s1
  let s3 := if s2.ActionItems = none then { s2 with ActionItems := some [] } else s2
  let s4 := if s3.CodeContext = "" then { s3 with CodeContext := "No specific code context available" } else s3
  let s5 := if s4.Confidence = 0 then { s4 with Confidence := 1 / 2 } else s4
  if s5.SuggestedFix = "" then { s5 with SuggestedFix := "No fix suggestion provided." } else s5

/-- `parseSummaryResponse` from `internal/ai/summarizer.go`. -/
def parseSummaryResponse (response : String) : Except String IssueSummary :=
  let r := cleanResponse response
  match goJsonParse r with
  | none => .error "failed to unmarshal JSON response"
  | some v =>
      match unmarshalIssueSummary v with
      | .error _ => .error "failed to unmarshal JSON response"
      | .ok s =>
          if s.Title = "" ∨ s.Summary = "" then .error "missing required fields in AI response"
          else .ok (applySummaryDefaults s)

/-! ## buildPrompt (internal/ai/summarizer.go) -/

/-- Comment loop of `buildPrompt`: indexed iteration that breaks at 5. -/
def commentLoop : List GhComment → Nat → List String
  | [], _ => []
  | c :: rest, i =>
      if i ≥ 5 then []
      else ("\n### Comment by " ++ c.userLogin ++ " (" ++ c.createdAt ++ "):") ::
           c.body :: commentLoop rest (i + 1)

/-- Commit loop of `buildPrompt`: indexed iteration that breaks at 3; the
`commit.GetSHA()[:8]` slice panics for SHAs shorter than 8 bytes. -/
def commitLoop : List GhCommit → Nat → Except GoPanic (List String)
  | [], _ => .ok []
  | c :: rest, i =>
      if i ≥ 3 then .ok []
      else
        match goSlicePanic c.sha 8, commitLoop rest (i + 1) with
        | .error p, _ => .error p
        | _, .error p => .error p
        | .ok sha8, .ok parts =>
            .ok (("\n### Commit: " ++ sha8) ::
                 ("Author: " ++ c.authorName) ::
                 ("Message: " ++ c.message) :: parts)

/-- Per-file prompt parts: metadata always, the unified patch only when
non-empty and under 2000 bytes. -/
def filePromptParts (f : GhFile) : List String :=
  ("\n### File: " ++ f.filename) ::
  ("Status: " ++ f.status) ::
  ("Additions: " ++ toString f.additions ++ ", Deletions: " ++ toString f.deletions) ::
  (if f.patch ≠ "" ∧ f.patch.utf8ByteSize < 2000 then
    ["Patch:\n```\n" ++ f.patch ++ "\n```"]
  else [])

/-- The `parts` slice assembled by `buildPrompt`; a short commit SHA
surfaces as the slice-bounds panic. -/
def buildPromptParts (d : IssueData) : Except GoPanic (List String) :=
  match (if d.commits.length > 0 then commitLoop d.commits 0 else .ok []) with
  | .error p => .error p
  | .ok commitParts => .ok <|
  ["## Issue Information\n",
   "Repository: " ++ repoFullName d.repository,
   "Issue #" ++ toString d.issue.number ++ ": " ++ d.issue.title,
   "State: " ++ d.issue.state,
   "Created by: " ++ d.issue.userLogin,
   "Created at: " ++ d.issue.createdAt]
  ++ (match d.issue.assignee with
      | some a => ["Assigned to: " ++ a]
      | none => [])
  ++ (if d.issue.labels.length > 0 then ["Labels: " ++ goJoin d.issue.labels ", "] else [])
  ++ ["\n## Issue Description\n" ++ d.issue.body]
  ++ (if d.comments.length > 0 then "\n## Recent Comments" :: commentLoop d.comments 0 else [])
  ++ (if d.commits.length > 0 then "\n## Related Commits" :: commitParts else [])
  ++ (if d.files.length > 0 then "\n## Code Changes" :: d.files.flatMap filePromptParts else [])
  ++ ["\n## Event Context\n",
      "Event Type: " ++ d.eventType,
      "Action: " ++ d.action]

/-- `buildPrompt`: the parts joined with newlines (propagating a panic). -/
def buildPrompt (d : IssueData) : Except GoPanic String :=
  match buildPromptParts d with
  | .error p => .error p
  | .ok parts => .ok (goJoin parts "\n")

/-- Modelled from the spec (§4.4): the user prompt renders exactly the 5
most recent comments, the 3 most recent commits, and per-file metadata with
the patch body included only when non-empty and shorter than 2000 bytes. -/
def specUserPromptParts (d : IssueData) : List String :=
  ["## Issue Information\n",
   "Repository: " ++ repoFullName d.repository,
   "Issue #" ++ toString d.issue.number ++ ": " ++ d.issue.title,
   "State: " ++ d.issue.state,
   "Created by: " ++ d.issue.userLogin,
   "Created at: " ++ d.issue.createdAt]
  ++ (match d.issue.assignee with
      | some a => ["Assigned to: " ++ a]
      | none => [])
  ++ (if d.issue.labels.length > 0 then ["Labels: " ++ goJoin d.issue.labels ", "] else [])
  ++ ["\n## Issue Description\n" ++ d.issue.body]
  ++ (if d.comments.length > 0 then
        "\n## Recent Comments" ::
          (d.comments.take 5).flatMap (fun c =>
            [("\n### Comment by " ++ c.userLogin ++ " (" ++ c.createdAt ++ "):"), c.body])
      else [])
  ++ (if d.commits.length > 0 then
        "\n## Related Commits" ::
          (d.commits.take 3).flatMap (fun c =>
            [("\n### Commit: " ++ (⟨utf8TakeChars c.sha.toList 8⟩ : String)),
             ("Author: " ++ c.authorName),
             ("Message: " ++ c.message)])
      else [])
  ++ (if d.files.length > 0 then "\n## Code Changes" :: d.files.flatMap filePromptParts else [])
  ++ ["\n## Event Context\n",
      "Event Type: " ++ d.eventType,
      "Action: " ++ d.action]

/-! ## GenerateSlackMessage (internal/ai/summarizer.go) -/

/-- A button of the actions block, with its opaque `value`. -/
structure SlackButton where
  text : String
  actionId : String
  value : String
  style : String
  url : Option String
deriving Repr, DecidableEq

/-- The generic notification blocks produced by the renderer. -/
inductive SlackBlock where
  | header (text : String)
  | fieldsSection (fields : List String)
  | textSection (text : String)
  | actions (elements : List SlackButton)
deriving Repr, DecidableEq

/-- Lookup in a Go map literal of strings: the zero value `""` for a
missing key. -/
def goMapGet (m : List (String × String)) (k : String) : String :=
  ((m.find? (fun kv => kv.1 == k)).map (fun kv => kv.2)).getD ""

/-- The priority→emoji map literal. -/
def priorityEmojiMap : List (String × String) :=
  [("high", "🔴"), ("medium", "🟡"), ("low", "🟢")]

/-- The category→emoji map literal. -/
def categoryEmojiMap : List (String × String) :=
  [("bug", "🐛"), ("feature", "✨"), ("enhancement", "🚀"), ("documentation", "📚"),
   ("security", "🔒"), ("performance", "⚡"), ("infrastructure", "🏗️"), ("other", "📋")]

/-- `GenerateSlackMessage` from `internal/ai/summarizer.go`, with the
`"blocks"` list modelled as the list of typed blocks. -/
def GenerateSlackMessage (d : IssueData) (s : IssueSummary) : List SlackBlock :=
  let emoji0 := goMapGet priorityEmojiMap s.Priority
  let emoji := if emoji0 = "" then "📋" else emoji0
  let catEmoji0 := goMapGet categoryEmojiMap s.Category
  let catEmoji := if catEmoji0 = "" then "📋" else catEmoji0
  let actionItemsText :=
    if (s.ActionItems.getD []).length > 0 then
      "• " ++ goJoin (s.ActionItems.getD []) "\n• "
    else "None specified"
  let repoName :=
    match d.repository with
    | some r => r.fullName
    | none => "Unknown Repository"
  [.header (emoji ++ " " ++ catEmoji ++ " Issue #" ++ toString d.issue.number ++ ": " ++ s.Title),
   .fieldsSection
     ["*Repository:*\n" ++ repoName,
      "*Priority:*\n" ++ goStringsTitle s.Priority,
      "*Category:*\n" ++ goStringsTitle s.Category,
      "*Confidence:*\n" ++ goFmtPercent s.Confidence],
   .textSection ("*Summary:*\n" ++ s.Summary),
   .textSection ("*Action Items:*\n" ++ actionItemsText),
   .textSection ("*Code Context:*\n" ++ s.CodeContext),
   .actions
     [{ text := "Review Issue", actionId := "review_issue",
        value := repoName ++ ":" ++ toString d.issue.number,
        style := "primary", url := some d.issue.htmlUrl },
      { text := "Suggest Fix", actionId := "suggest_fix",
        value := repoName ++ ":" ++ toString d.issue.number,
        style := "primary", url := none }]]

/-- Modelled from the spec (§4.6): total priority-glyph table with a
generic fallback. -/
def priorityGlyph (p : String) : String :=
  if p = "high" then "🔴" else if p = "medium" then "🟡" else if p = "low" then "🟢" else "📋"

/-- Modelled from the spec (§4.6): total category-glyph table with a
generic fallback. -/
def categoryGlyph (c : String) : String :=
  if c = "bug" then "🐛" else if c = "feature" then "✨" else if c = "enhancement" then "🚀"
  else if c = "documentation" then "📚" else if c = "security" then "🔒"
  else if c = "performance" then "⚡" else if c = "infrastructure" then "🏗️"
  else if c = "other" then "📋" else "📋"

/-- Modelled from the spec (§4.6): the six blocks of the notification
document in fixed order. -/
def specNotificationBlocks (d : IssueData) (s : IssueSummary) : List SlackBlock :=
  let repoName :=
    match d.repository with
    | some r => r.fullName
    | none => "Unknown Repository"
  let buttonValue := repoName ++ ":" ++ toString d.issue.number
  let itemsText :=
    match s.ActionItems.getD [] with
    | [] => "None specified"
    | items => "• " ++ goJoin items "\n• "
  [.header (priorityGlyph s.Priority ++ " " ++ categoryGlyph s.Category ++
            " Issue #" ++ toString d.issue.number ++ ": " ++ s.Title),
   .fieldsSection
     ["*Repository:*\n" ++ repoName,
      "*Priority:*\n" ++ goStringsTitle s.Priority,
      "*Category:*\n" ++ goStringsTitle s.Category,
      "*Confidence:*\n" ++ goFmtPercent s.Confidence],
   .textSection ("*Summary:*\n" ++ s.Summary),
   .textSection ("*Action Items:*\n" ++ itemsText),
   .textSection ("*Code Context:*\n" ++ s.CodeContext),
   .actions
     [{ text := "Review Issue", actionId := "review_issue", value := buttonValue,
        style := "primary", url := some d.issue.htmlUrl },
      { text := "Suggest Fix", actionId := "suggest_fix", value := buttonValue,
        style := "primary", url := none }]]

/-! ## GitHub webhook handler (internal/github/handler.go) -/

/-- Decoded shape shared by `github.IssuesEvent` and
`github.IssueCommentEvent`: a nullable action and a nullable issue. -/
structure GhEventShape where
  action : Option String
  issue : Option GhIssue
deriving Repr, DecidableEq

/-- Outcomes of the three enrichment fetches, standing in for the GitHub
API: each fetch may fail independently. -/
structure EnrichEnv where
  fetchComments : String → String → Int → Except Unit (List GhComment)
  fetchCommits : String → String → Int → Except Unit (List GhCommit)
  fetchFiles : String → String → String → Except Unit (List GhFile)

/-- `enrichIssueData`: nil issue is an error; each fetch failure is
absorbed, leaving the corresponding field empty; files are fetched only
when at least one commit was resolved. -/
def enrichIssueData (env : EnrichEnv) (issue : Option GhIssue) (action eventType : String) :
    Except String IssueData :=
  match issue with
  | none => .error "issue is nil"
  | some is =>
      let repoOwner := match is.repository with
        | some r => r.owner
        | none => ""
      let repoName := match is.repository with
        | some r => r.name
        | none => ""
      let comments := match env.fetchComments repoOwner repoName is.number with
        | .ok cs => cs
        | .error _ => []
      let commits := match env.fetchCommits repoOwner repoName is.number with
        | .ok cs => cs
        | .error _ => []
      let files :=
        if commits.length > 0 then
          match env.fetchFiles repoOwner repoName ((commits.headD { sha := "", authorName := "", message := "" }).sha) with
          | .ok fs => fs
          | .error _ => []
        else []
      .ok { issue := is, comments := comments, commits := commits, files := files,
            repository := is.repository, eventType := eventType, action := action }

/-- The fixed allow-list of processable actions. -/
def processableActions : List String :=
  ["opened", "edited", "reopened", "closed", "created", "updated"]

/-- `shouldProcessAction`. -/
def shouldProcessAction (action : String) : Bool :=
  processableActions.any (fun a => action == a)

/-- Result of one event handler: issue data, status string, error, and the
number of `enrichIssueData` invocations it performed. -/
structure EventHandlerResult where
  issueData : Option IssueData
  status : String
  err : Option String
  enrichCalls : Nat
deriving Repr

/-- `handleIssuesEvent`: `decoded` is the result of `json.Unmarshal` into
`github.IssuesEvent` (`none` for malformed JSON). -/
def handleIssuesEvent (env : EnrichEnv) (decoded : Option GhEventShape) : EventHandlerResult :=
  match decoded with
  | none => { issueData := none, status := "error",
              err := some "failed to unmarshal issues event", enrichCalls := 0 }
  | some ev =>
      match ev.action with
      | none => { issueData := none, status := "skipped", err := none, enrichCalls := 0 }
      | some a =>
          if shouldProcessAction a then
            match enrichIssueData env ev.issue a "issues" with
            | .error e => { issueData := none, status := "error", err := some e, enrichCalls := 1 }
            | .ok d => { issueData := some d, status := "success", err := none, enrichCalls := 1 }
          else { issueData := none, status := "skipped", err := none, enrichCalls := 0 }

/-- `handleIssueCommentEvent`, identical shape with its own event type. -/
def handleIssueCommentEvent (env : EnrichEnv) (decoded : Option GhEventShape) : EventHandlerResult :=
  match decoded with
  | none => { issueData := none, status := "error",
              err := some "failed to unmarshal issue comment event", enrichCalls := 0 }
  | some ev =>
      match ev.action with
      | none => { issueData := none, status := "skipped", err := none, enrichCalls := 0 }
      | some a =>
          if shouldProcessAction a then
            match enrichIssueData env ev.issue a "issue_comment" with
            | .error e => { issueData := none, status := "error", err := some e, enrichCalls := 1 }
            | .ok d => { issueData := some d, status := "success", err := none, enrichCalls := 1 }
          else { issueData := none, status := "skipped", err := none, enrichCalls := 0 }

/-- Observable outcome of one `HandleWebhook` request. -/
structure WebhookResult where
  httpStatus : Nat
  recordedAction : Option String
  spawnedProcessing : Bool
deriving Repr, DecidableEq

/-- `HandleWebhook`: body read and signature verification outcomes are
inputs (they happen on raw bytes); `decoded` is the unmarshal result used
by whichever supported branch runs. After writing the HTTP status the
handler always records metrics with `issueData.Action` — a nil-pointer
dereference whenever `issueData` is nil. -/
def HandleWebhook (env : EnrichEnv) (bodyReadOk sigOk : Bool) (eventType : String)
    (decoded : Option GhEventShape) : Except GoPanic WebhookResult :=
  if !bodyReadOk then
    .ok { httpStatus := 400, recordedAction := none, spawnedProcessing := false }
  else if !sigOk then
    .ok { httpStatus := 401, recordedAction := none, spawnedProcessing := false }
  else if eventType = "issues" ∨ eventType = "issue_comment" then
    let r :=
      if eventType = "issues" then handleIssuesEvent env decoded
      else handleIssueCommentEvent env decoded
    let httpStatus := if r.err.isSome then 500 else 200
    match r.issueData with
    | none => .error .nilPointerDeref
    | some d =>
        .ok { httpStatus := httpStatus, recordedAction := some d.action,
              spawnedProcessing := r.issueData.isSome ∧ r.err = none }
  else
    .ok { httpStatus := 200, recordedAction := none, spawnedProcessing := false }

/-! ## Slack interactive handler (internal/slack/notifier.go) -/

/-- One entry of `callback.ActionCallback.BlockActions`. -/
structure SlackBlockAction where
  actionId : String
  value : String
deriving Repr, DecidableEq

/-- The fields of `slack.InteractionCallback` the handler reads. -/
structure SlackCallback where
  channelId : String
  messageTs : String
  blockActions : List SlackBlockAction
deriving Repr, DecidableEq

/-- A `PostMessage` call: channel, text and the thread timestamp. -/
structure SlackPostCall where
  channel : String
  text : String
  threadTs : String
deriving Repr, DecidableEq

/-- External collaborators of the interactive handler: the enrichment
fetch, the summarizer, and the outcome of each Slack post. -/
structure SlackEnv where
  fetchEnriched : String → Int → Except Unit IssueData
  summarize : IssueData → Except Unit IssueSummary
  postOk : SlackPostCall → Bool

/-- Observable outcome of one interactive-callback request: HTTP status,
the posts attempted, and the enrichment/summarization invocations. -/
structure InteractiveResult where
  status : Nat
  posts : List SlackPostCall
  enrichCalls : List (String × Int)
  summarizeCalls : List IssueData
deriving Repr

/-- `HandleInteractiveMessage` from `internal/slack/notifier.go`.
`formOk` is the `ParseForm` outcome, `payloadPresent` whether the form's
`payload` field is non-empty, `decoded` the unmarshal result of the
payload JSON. -/
def HandleInteractiveMessage (env : SlackEnv) (formOk payloadPresent : Bool)
    (decoded : Option SlackCallback) : InteractiveResult :=
  if !formOk then { status := 400, posts := [], enrichCalls := [], summarizeCalls := [] }
  else if !payloadPresent then { status := 400, posts := [], enrichCalls := [], summarizeCalls := [] }
  else
    match decoded with
    | none => { status := 400, posts := [], enrichCalls := [], summarizeCalls := [] }
    | some cb =>
        match cb.blockActions with
        | [] => { status := 200, posts := [], enrichCalls := [], summarizeCalls := [] }
        | action :: _ =>
            if action.actionId = "review_issue" then
              let post : SlackPostCall :=
                { channel := cb.channelId,
                  text := ":mag: Review thread started! (AI insights coming soon)",
                  threadTs := cb.messageTs }
              if env.postOk post then
                { status := 200, posts := [post], enrichCalls := [], summarizeCalls := [] }
              else
                { status := 500, posts := [post], enrichCalls := [], summarizeCalls := [] }
            else if action.actionId = "suggest_fix" then
              match goSplitNColon2 action.value with
              | [repo, numStr] =>
                  match goAtoi numStr with
                  | .error _ =>
                      { status := 200,
                        posts := [{ channel := cb.channelId,
                                    text := ":warning: Could not parse issue number.",
                                    threadTs := cb.messageTs }],
                        enrichCalls := [], summarizeCalls := [] }
                  | .ok number =>
                      match env.fetchEnriched repo number with
                      | .error _ =>
                          { status := 200,
                            posts := [{ channel := cb.channelId,
                                        text := ":warning: Could not fetch issue data for fix suggestion.",
                                        threadTs := cb.messageTs }],
                            enrichCalls := [(repo, number)], summarizeCalls := [] }
                      | .ok issueData =>
                          match env.summarize issueData with
                          | .error _ =>
                              { status := 200,
                                posts := [{ channel := cb.channelId,
                                            text := ":warning: AI could not generate a fix suggestion.",
                                            threadTs := cb.messageTs }],
                                enrichCalls := [(repo, number)], summarizeCalls := [issueData] }
                          | .ok summary =>
                              let post : SlackPostCall :=
                                { channel := cb.channelId,
                                  text := ":wrench: *Suggested Fix:*\n```\n" ++ summary.SuggestedFix ++ "\n```",
                                  threadTs := cb.messageTs }
                              if env.postOk post then
                                { status := 200, posts := [post],
                                  enrichCalls := [(repo, number)], summarizeCalls := [issueData] }
                              else
                                { status := 500, posts := [post],
                                  enrichCalls := [(repo, number)], summarizeCalls := [issueData] }
              | _ =>
                  { status := 200,
                    posts := [{ channel := cb.channelId,
                                text := ":warning: Could not parse issue information.",
                                threadTs := cb.messageTs }],
                    enrichCalls := [], summarizeCalls := [] }
            else { status := 200, posts := [], enrichCalls := [], summarizeCalls := [] }

/-! ## Sample data for concrete evaluations -/

/-- A sample repository. -/
def sampleRepo : GhRepo := { fullName := "acme/widgets", owner := "acme", name := "widgets" }

/-- A sample issue. -/
def sampleIssue : GhIssue :=
  { number := 7, title := "Crash on start", state := "open", userLogin := "alice",
    createdAt := "2025-01-01T00:00:00Z", assignee := none, labels := [], body := "It crashes.",
    htmlUrl := "https://example.test/acme/widgets/issues/7", repository := some sampleRepo }

/-- A sample comment, numbered for take-limit checks. -/
def sampleComment (i : Nat) : GhComment :=
  { userLogin := "bob", createdAt := "2025-01-02T00:00:00Z", body := "comment " ++ toString i }

/-- A sample enriched issue. -/
def sampleIssueData : IssueData :=
  { issue := sampleIssue, comments := (List.range 7).map sampleComment, commits := [],
    files := [], repository := some sampleRepo, eventType := "issues", action := "opened" }

/-- An enrichment environment whose fetches all succeed with empty data. -/
def sampleEnrichEnv : EnrichEnv :=
  { fetchComments := fun _ _ _ => .ok [], fetchCommits := fun _ _ _ => .ok [],
    fetchFiles := fun _ _ _ => .ok [] }

/-- A sample summary. -/
def sampleSummary : IssueSummary :=
  { Title := "T", Summary := "S", Priority := "high", Category := "bug",
    ActionItems := some ["do it"], CodeContext := "ctx", Confidence := 9 / 10,
    SuggestedFix := "patch the thing" }

/-- A Slack environment that succeeds on issue 42 of `owner/repo` only and
whose posts always succeed. -/
def sampleSlackEnv : SlackEnv :=
  { fetchEnriched := fun r i => if r = "owner/repo" ∧ i = 42 then .ok sampleIssueData else .error (),
    summarize := fun d => if d = sampleIssueData then .ok sampleSummary else .error (),
    postOk := fun _ => true }

/-- A Slack environment in which every post fails. -/
def postFailSlackEnv : SlackEnv :=
  { fetchEnriched := fun _ _ => .error (), summarize := fun _ => .error (),
    postOk := fun _ => false }

/-- A callback whose first action is a well-formed suggest-fix click. -/
def suggestFixCallback : SlackCallback :=
  { channelId := "C1", messageTs := "171.001",
    blockActions := [{ actionId := "suggest_fix", value := "owner/repo:42" }] }

/-- A callback whose first action is a review click. -/
def reviewCallback : SlackCallback :=
  { channelId := "C1", messageTs := "171.001",
    blockActions := [{ actionId := "review_issue", value := "owner/repo:42" }] }

/-- A suggest-fix callback whose value has no colon separator. -/
def badValueCallback : SlackCallback :=
  { channelId := "C1", messageTs := "171.001",
    blockActions := [{ actionId := "suggest_fix", value := "owner-repo-42" }] }

/-- An enriched issue with seven comments, one commit with a full-length
SHA, and one file, for concrete prompt evaluations. -/
def samplePromptIssueData : IssueData :=
  { issue := sampleIssue,
    comments := (List.range 7).map sampleComment,
    commits := [{ sha := "0123456789abcdef", authorName := "ann", message := "fix crash" }],
    files := [{ filename := "main.go", status := "modified", additions := 3, deletions := 1,
                patch := "@@ -1 +1 @@" }],
    repository := some sampleRepo, eventType := "issues", action := "opened" }

/-- The keys named by the system prompt's JSON response schema. -/
def modelSchemaKeys : List String :=
  ["title", "summary", "priority", "category", "action_items", "code_context",
   "suggested_fix", "confidence"]

/-! ## Helper lemmas -/

/-- `commentLoop` is iteration over the first `5 - i` comments. -/
theorem commentLoop_eq_take (cs : List GhComment) (i : Nat) :
    commentLoop cs i = (cs.take (5 - i)).flatMap
      (fun c => [("\n### Comment by " ++ c.userLogin ++ " (" ++ c.createdAt ++ "):"), c.body]) := by
  induction cs generalizing i with
  | nil => simp [commentLoop]
  | cons c rest ih =>
      by_cases h : i ≥ 5
      · have h5 : 5 - i = 0 := by omega
        simp [commentLoop, h, h5]
      · have h5 : 5 - i = (5 - (i + 1)) + 1 := by omega
        simp only [commentLoop, if_neg h, h5, List.take_succ_cons, List.flatMap_cons, ih]
        rfl

/-- When the first `3 - i` commits all have SHAs of at least 8 bytes,
`commitLoop` succeeds and is iteration over exactly those commits. -/
theorem commitLoop_ok_eq_take (cs : List GhCommit) (i : Nat)
    (hsha : ∀ c ∈ cs.take (3 - i), 8 ≤ c.sha.utf8ByteSize) :
    commitLoop cs i = .ok ((cs.take (3 - i)).flatMap
      (fun c => [("\n### Commit: " ++ (⟨utf8TakeChars c.sha.toList 8⟩ : String)),
                 ("Author: " ++ c.authorName), ("Message: " ++ c.message)])) := by
  induction cs generalizing i with
  | nil => simp [commitLoop]
  | cons c rest ih =>
      by_cases h : i ≥ 3
      · have h3 : 3 - i = 0 := by omega
        simp [commitLoop, h, h3]
      · have h3 : 3 - i = (3 - (i + 1)) + 1 := by omega
        rw [h3] at hsha
        have hc : 8 ≤ c.sha.utf8ByteSize :=
          hsha c (by simp [List.take_succ_cons])
        have hsl : goSlicePanic c.sha 8 = .ok ⟨utf8TakeChars c.sha.toList 8⟩ := by
          unfold goSlicePanic
          rw [if_pos hc]
        have hrest := ih (i + 1) (fun x hx =>
          hsha x (by simp only [List.take_succ_cons, List.mem_cons]; exact Or.inr hx))
        simp only [commitLoop, if_neg h, h3, List.take_succ_cons, List.flatMap_cons, hsl, hrest]
        rfl

/-- C5: for every enriched issue, the user prompt assembled by `buildPrompt`
renders exactly the first 5 comments of the enriched sequence and no
others, and each file entry contributes its patch body exactly when the
patch is non-empty and under 2000 characters, while metadata (filename,
status, addition/deletion counts) is always contributed. -/
theorem buildPrompt_matches_spec (d : IssueData)
    (hsha : ∀ c ∈ d.commits.take 3, 8 ≤ c.sha.utf8ByteSize) :
    buildPromptParts d = .ok (specUserPromptParts d) ∧
    buildPrompt d = .ok (goJoin (specUserPromptParts d) "\n") := by
  have hcl := commitLoop_ok_eq_take d.commits 0 (by simpa using hsha)
  have h : buildPromptParts d = .ok (specUserPromptParts d) := by
    unfold buildPromptParts specUserPromptParts
    rw [commentLoop_eq_take]
    by_cases hc : d.commits.length > 0 <;> simp [hc, hcl]
  refine ⟨h, ?_⟩
  unfold buildPrompt
  rw [h]

/-- C5 witness: on a sample issue with seven comments, a full-length commit
SHA and one file, the prompt parts evaluate to the spec rendering. -/
theorem buildPrompt_matches_spec_witness :
    (∀ c ∈ samplePromptIssueData.commits.take 3, 8 ≤ c.sha.utf8ByteSize) ∧
    buildPromptParts samplePromptIssueData = .ok (specUserPromptParts samplePromptIssueData) :=
  ⟨by decide, (buildPrompt_matches_spec samplePromptIssueData (by decide)).1⟩

/-- Skipped shape of `handleIssuesEvent`: absent or non-processable action. -/
theorem handleIssuesEvent_skip (env : EnrichEnv) (ev : GhEventShape)
    (h : ev.action = none ∨ ∃ a, ev.action = some a ∧ shouldProcessAction a = false) :
    handleIssuesEvent env (some ev) =
      { issueData := none, status := "skipped", err := none, enrichCalls := 0 } := by
  rcases h with h | ⟨a, ha, hsp⟩
  · simp [handleIssuesEvent, h]
  · simp [handleIssuesEvent, ha, hsp]

/-- Skipped shape of `handleIssueCommentEvent`. -/
theorem handleIssueCommentEvent_skip (env : EnrichEnv) (ev : GhEventShape)
    (h : ev.action = none ∨ ∃ a, ev.action = some a ∧ shouldProcessAction a = false) :
    handleIssueCommentEvent env (some ev) =
      { issueData := none, status := "skipped", err := none, enrichCalls := 0 } := by
  rcases h with h | ⟨a, ha, hsp⟩
  · simp [handleIssueCommentEvent, h]
  · simp [handleIssueCommentEvent, ha, hsp]

/-- If `handleIssuesEvent` produced issue data, it reported no error. -/
theorem handleIssuesEvent_ok_inv (env : EnrichEnv) (dec : Option GhEventShape) :
    (handleIssuesEvent env dec).issueData.isSome →
      (handleIssuesEvent env dec).err = none ∧ (handleIssuesEvent env dec).status = "success" := by
  cases dec with
  | none => simp [handleIssuesEvent]
  | some ev =>
      cases hact : ev.action with
      | none => simp [handleIssuesEvent, hact]
      | some a =>
          by_cases hsp : shouldProcessAction a
          · cases he : enrichIssueData env ev.issue a "issues" <;>
              simp [handleIssuesEvent, hact, hsp, he]
          · simp [handleIssuesEvent, hact, hsp]

/-- If `handleIssueCommentEvent` produced issue data, it reported no error. -/
theorem handleIssueCommentEvent_ok_inv (env : EnrichEnv) (dec : Option GhEventShape) :
    (handleIssueCommentEvent env dec).issueData.isSome →
      (handleIssueCommentEvent env dec).err = none ∧
      (handleIssueCommentEvent env dec).status = "success" := by
  cases dec with
  | none => simp [handleIssueCommentEvent]
  | some ev =>
      cases hact : ev.action with
      | none => simp [handleIssueCommentEvent, hact]
      | some a =>
          by_cases hsp : shouldProcessAction a
          · cases he : enrichIssueData env ev.issue a "issue_comment" <;>
              simp [handleIssueCommentEvent, hact, hsp, he]
          · simp [handleIssueCommentEvent, hact, hsp]

/-- C7: for every decoded issues or issue_comment event whose action is
absent or outside the allow-list `{opened, edited, reopened, closed,
created, updated}`, the event handlers return status "skipped" with no
issue data and no error and perform no enrichment fetch (hence nothing is
ever handed to summarization); for every action in the allow-list they
proceed to exactly one enrichment call. -/
theorem eventHandlers_skip_outside_allowlist (env : EnrichEnv) (ev : GhEventShape) :
    processableActions = ["opened", "edited", "reopened", "closed", "created", "updated"] ∧
    ((ev.action = none ∨ ∃ a, ev.action = some a ∧ shouldProcessAction a = false) →
      handleIssuesEvent env (some ev) =
        { issueData := none, status := "skipped", err := none, enrichCalls := 0 } ∧
      handleIssueCommentEvent env (some ev) =
        { issueData := none, status := "skipped", err := none, enrichCalls := 0 }) ∧
    (∀ a, ev.action = some a → shouldProcessAction a = true →
      (handleIssuesEvent env (some ev)).enrichCalls = 1 ∧
      (handleIssueCommentEvent env (some ev)).enrichCalls = 1) := by
  refine ⟨rfl, fun h => ⟨handleIssuesEvent_skip env ev h, handleIssueCommentEvent_skip env ev h⟩, ?_⟩
  intro a ha hsp
  constructor
  · cases he : enrichIssueData env ev.issue a "issues" <;>
      simp [handleIssuesEvent, ha, hsp, he]
  · cases he : enrichIssueData env ev.issue a "issue_comment" <;>
      simp [handleIssueCommentEvent, ha, hsp, he]

/-- C7 witness: a `labeled` action is skipped with zero enrichment calls,
an `opened` action reaches exactly one enrichment call. -/
theorem eventHandlers_skip_outside_allowlist_witness :
    handleIssuesEvent sampleEnrichEnv (some { action := some "labeled", issue := none }) =
      { issueData := none, status := "skipped", err := none, enrichCalls := 0 } ∧
    (handleIssuesEvent sampleEnrichEnv
      (some { action := some "opened", issue := some sampleIssue })).enrichCalls = 1 :=
  ⟨((eventHandlers_skip_outside_allowlist sampleEnrichEnv
      { action := some "labeled", issue := none }).2.1
      (Or.inr ⟨"labeled", rfl, by decide⟩)).1,
   ((eventHandlers_skip_outside_allowlist sampleEnrichEnv
      { action := some "opened", issue := some sampleIssue }).2.2
      "opened" rfl (by decide)).1⟩

/-- C9: for a supported event type, `HandleWebhook` reaches the
metrics-recording step with nil issue data — and panics on
`issueData.Action` — both when the body fails to decode and when the
decoded action is absent or outside the allow-list; whenever it completes
without panicking, issue data was produced, its action was recorded, and
processing was spawned. -/
theorem handleWebhook_nil_deref (env : EnrichEnv) (et : String) (dec : Option GhEventShape)
    (het : et = "issues" ∨ et = "issue_comment") :
    (dec = none → HandleWebhook env true true et dec = .error .nilPointerDeref) ∧
    (∀ ev, dec = some ev →
      (ev.action = none ∨ ∃ a, ev.action = some a ∧ shouldProcessAction a = false) →
      HandleWebhook env true true et dec = .error .nilPointerDeref) ∧
    (∀ r, HandleWebhook env true true et dec = .ok r →
      r.httpStatus = 200 ∧ r.recordedAction.isSome ∧ r.spawnedProcessing = true) := by
  rcases het with rfl | rfl
  · refine ⟨?_, ?_, ?_⟩
    · rintro rfl
      simp [HandleWebhook, handleIssuesEvent]
    · rintro ev rfl h
      simp [HandleWebhook, handleIssuesEvent_skip env ev h]
    · intro r hr
      rcases hdat : (handleIssuesEvent env dec).issueData with _ | d
      · simp [HandleWebhook, hdat] at hr
      · have hinv := handleIssuesEvent_ok_inv env dec (by rw [hdat]; rfl)
        simp [HandleWebhook, hdat, hinv.1] at hr
        rw [← hr]
        simp [hdat, hinv.1]
  · refine ⟨?_, ?_, ?_⟩
    · rintro rfl
      simp [HandleWebhook, handleIssueCommentEvent]
    · rintro ev rfl h
      simp [HandleWebhook, handleIssueCommentEvent_skip env ev h]
    · intro r hr
      rcases hdat : (handleIssueCommentEvent env dec).issueData with _ | d
      · simp [HandleWebhook, hdat] at hr
      · have hinv := handleIssueCommentEvent_ok_inv env dec (by rw [hdat]; rfl)
        simp [HandleWebhook, hdat, hinv.1] at hr
        rw [← hr]
        simp [hdat, hinv.1]

/-- C9 witness: a skipped `labeled` issues event panics at the metrics
call, while a processable `opened` event completes with status 200. -/
theorem handleWebhook_nil_deref_witness :
    HandleWebhook sampleEnrichEnv true true "issues"
      (some { action := some "labeled", issue := some sampleIssue }) =
      .error .nilPointerDeref ∧
    ∀ r, HandleWebhook sampleEnrichEnv true true "issues"
      (some { action := some "opened", issue := some sampleIssue }) = .ok r →
      r.httpStatus = 200 :=
  ⟨(handleWebhook_nil_deref sampleEnrichEnv "issues"
      (some { action := some "labeled", issue := some sampleIssue }) (Or.inl rfl)).2.1
      { action := some "labeled", issue := some sampleIssue } rfl
      (Or.inr ⟨"labeled", rfl, by decide⟩),
   fun r hr => ((handleWebhook_nil_deref sampleEnrichEnv "issues"
      (some { action := some "opened", issue := some sampleIssue }) (Or.inl rfl)).2.2 r hr).1⟩

/-- `strings.SplitN(s, ":", 2)` yields one or two parts. -/
theorem goSplitNColon2_shape (s : String) :
    (∃ x, goSplitNColon2 s = [x]) ∨ ∃ x y, goSplitNColon2 s = [x, y] := by
  unfold goSplitNColon2
  cases splitFirstColon s.toList with
  | none => exact Or.inl ⟨s, rfl⟩
  | some p => exact Or.inr ⟨⟨p.1⟩, ⟨p.2⟩, rfl⟩

/-- C2: a suggest-fix callback with a well-formed `repo:number` value runs
exactly one enrichment fetch and one summarization call for that issue and
posts the suggested fix as a threaded reply; a value without the colon
separator, or with a non-integer number part, runs zero such calls and
posts a threaded warning instead. -/
theorem interactive_suggest_fix (env : SlackEnv) (cb : SlackCallback)
    (act : SlackBlockAction) (rest : List SlackBlockAction)
    (hcb : cb.blockActions = act :: rest) (hid : act.actionId = "suggest_fix") :
    (∀ repo numStr n d s,
      goSplitNColon2 act.value = [repo, numStr] → goAtoi numStr = .ok n →
      env.fetchEnriched repo n = .ok d → env.summarize d = .ok s →
      (HandleInteractiveMessage env true true (some cb)).enrichCalls = [(repo, n)] ∧
      (HandleInteractiveMessage env true true (some cb)).summarizeCalls = [d] ∧
      (HandleInteractiveMessage env true true (some cb)).posts =
        [{ channel := cb.channelId,
           text := ":wrench: *Suggested Fix:*\n```\n" ++ s.SuggestedFix ++ "\n```",
           threadTs := cb.messageTs }]) ∧
    ((goSplitNColon2 act.value).length ≠ 2 →
      (HandleInteractiveMessage env true true (some cb)).enrichCalls = [] ∧
      (HandleInteractiveMessage env true true (some cb)).summarizeCalls = [] ∧
      (HandleInteractiveMessage env true true (some cb)).posts =
        [{ channel := cb.channelId, text := ":warning: Could not parse issue information.",
           threadTs := cb.messageTs }]) ∧
    (∀ repo numStr,
      goSplitNColon2 act.value = [repo, numStr] → goAtoi numStr = .error () →
      (HandleInteractiveMessage env true true (some cb)).enrichCalls = [] ∧
      (HandleInteractiveMessage env true true (some cb)).summarizeCalls = [] ∧
      (HandleInteractiveMessage env true true (some cb)).posts =
        [{ channel := cb.channelId, text := ":warning: Could not parse issue number.",
           threadTs := cb.messageTs }]) := by
  have hnotrev : ¬act.actionId = "review_issue" := by rw [hid]; decide
  refine ⟨?_, ?_, ?_⟩
  · intro repo numStr n d s hsplit hatoi hfetch hsumm
    simp [HandleInteractiveMessage, hcb, hnotrev, hid, hsplit, hatoi, hfetch, hsumm]
    by_cases hpo : env.postOk
        { channel := cb.channelId,
          text := ":wrench: *Suggested Fix:*\n```\n" ++ s.SuggestedFix ++ "\n```",
          threadTs := cb.messageTs } <;> simp [hpo]
  · intro hlen
    rcases goSplitNColon2_shape act.value with ⟨x, hx⟩ | ⟨x, y, hxy⟩
    · simp [HandleInteractiveMessage, hcb, hnotrev, hid, hx]
    · rw [hxy] at hlen
      simp at hlen
  · intro repo numStr hsplit hatoi
    simp [HandleInteractiveMessage, hcb, hnotrev, hid, hsplit, hatoi]


/-- C2 witness: the well-formed value `owner/repo:42` yields one enrichment
and one summarization call and the fix reply; the malformed value yields
zero calls and the warning reply. -/
theorem interactive_suggest_fix_witness :
    (HandleInteractiveMessage sampleSlackEnv true true (some suggestFixCallback)).enrichCalls =
      [("owner/repo", 42)] ∧
    (HandleInteractiveMessage sampleSlackEnv true true (some suggestFixCallback)).summarizeCalls =
      [sampleIssueData] ∧
    (HandleInteractiveMessage sampleSlackEnv true true (some suggestFixCallback)).posts =
      [{ channel := "C1",
         text := ":wrench: *Suggested Fix:*\n```\n" ++ "patch the thing" ++ "\n```",
         threadTs := "171.001" }] ∧
    (HandleInteractiveMessage sampleSlackEnv true true (some badValueCallback)).enrichCalls = [] ∧
    (HandleInteractiveMessage sampleSlackEnv true true (some badValueCallback)).posts =
      [{ channel := "C1", text := ":warning: Could not parse issue information.",
         threadTs := "171.001" }] := by
  have hgood := (interactive_suggest_fix sampleSlackEnv suggestFixCallback
    { actionId := "suggest_fix", value := "owner/repo:42" } [] rfl rfl).1
    "owner/repo" "42" 42 sampleIssueData sampleSummary (by decide) rfl rfl rfl
  have hbad := ((interactive_suggest_fix sampleSlackEnv badValueCallback
    { actionId := "suggest_fix", value := "owner-repo-42" } [] rfl rfl).2.1 (by decide))
  exact ⟨hgood.1, hgood.2.1, hgood.2.2, hbad.1, hbad.2.2⟩

/-- C8 (amended): the interactive handler responds 400 exactly when the
form body or its payload fails to parse; it responds 500 only when the
threaded reply it itself attempted — the review acknowledgement or the
suggested-fix message — failed to send; and every other case, including
value-parse failures, enrichment failures and summarization failures, posts
a best-effort threaded warning and still acknowledges with 200. -/
theorem interactive_status_policy (env : SlackEnv) (formOk payloadPresent : Bool)
    (dec : Option SlackCallback) :
    ((HandleInteractiveMessage env formOk payloadPresent dec).status = 200 ∨
     (HandleInteractiveMessage env formOk payloadPresent dec).status = 400 ∨
     (HandleInteractiveMessage env formOk payloadPresent dec).status = 500) ∧
    ((HandleInteractiveMessage env formOk payloadPresent dec).status = 400 ↔
      formOk = false ∨ payloadPresent = false ∨ dec = none) ∧
    ((HandleInteractiveMessage env formOk payloadPresent dec).status = 500 →
      ∃ p, (HandleInteractiveMessage env formOk payloadPresent dec).posts = [p] ∧
        env.postOk p = false ∧
        (p.text = ":mag: Review thread started! (AI insights coming soon)" ∨
         ∃ fix, p.text = ":wrench: *Suggested Fix:*\n```\n" ++ fix ++ "\n```")) ∧
    (∀ cb act rest, formOk = true → payloadPresent = true → dec = some cb →
      cb.blockActions = act :: rest → act.actionId = "suggest_fix" →
      (((goSplitNColon2 act.value).length ≠ 2 →
        (HandleInteractiveMessage env formOk payloadPresent dec).status = 200 ∧
        (HandleInteractiveMessage env formOk payloadPresent dec).posts =
          [{ channel := cb.channelId, text := ":warning: Could not parse issue information.",
             threadTs := cb.messageTs }]) ∧
       (∀ repo numStr, goSplitNColon2 act.value = [repo, numStr] →
        goAtoi numStr = .error () →
        (HandleInteractiveMessage env formOk payloadPresent dec).status = 200 ∧
        (HandleInteractiveMessage env formOk payloadPresent dec).posts =
          [{ channel := cb.channelId, text := ":warning: Could not parse issue number.",
             threadTs := cb.messageTs }]) ∧
       (∀ repo numStr n, goSplitNColon2 act.value = [repo, numStr] →
        goAtoi numStr = .ok n → env.fetchEnriched repo n = .error () →
        (HandleInteractiveMessage env formOk payloadPresent dec).status = 200 ∧
        (HandleInteractiveMessage env formOk payloadPresent dec).posts =
          [{ channel := cb.channelId,
             text := ":warning: Could not fetch issue data for fix suggestion.",
             threadTs := cb.messageTs }]) ∧
       (∀ repo numStr n d, goSplitNColon2 act.value = [repo, numStr] →
        goAtoi numStr = .ok n → env.fetchEnriched repo n = .ok d →
        env.summarize d = .error () →
        (HandleInteractiveMessage env formOk payloadPresent dec).status = 200 ∧
        (HandleInteractiveMessage env formOk payloadPresent dec).posts =
          [{ channel := cb.channelId,
             text := ":warning: AI could not generate a fix suggestion.",
             threadTs := cb.messageTs }]))) := by
  have hcases : ∀ goal : Prop,
      (formOk = false → goal) → (formOk = true → payloadPresent = false → goal) →
      (formOk = true → payloadPresent = true → dec = none → goal) →
      (∀ cb, formOk = true → payloadPresent = true → dec = some cb → goal) → goal := by
    intro goal h1 h2 h3 h4
    cases formOk
    · exact h1 rfl
    cases payloadPresent
    · exact h2 rfl rfl
    cases dec with
    | none => exact h3 rfl rfl rfl
    | some cb => exact h4 cb rfl rfl rfl
  refine ⟨?_, ?_, ?_, ?_⟩
  case _ =>
    refine hcases _ (fun h1 => ?_) (fun h1 h2 => ?_) (fun h1 h2 h3 => ?_)
      (fun cb h1 h2 h3 => ?_) <;> subst_vars
    · simp [HandleInteractiveMessage]
    · simp [HandleInteractiveMessage]
    · simp [HandleInteractiveMessage]
    rcases hba : cb.blockActions with _ | ⟨act, rest⟩
    · simp [HandleInteractiveMessage, hba]
    by_cases hrev : act.actionId = "review_issue"
    · by_cases hpo : env.postOk
        { channel := cb.channelId,
          text := ":mag: Review thread started! (AI insights coming soon)",
          threadTs := cb.messageTs } <;>
        simp [HandleInteractiveMessage, hba, hrev, hpo]
    by_cases hfix : act.actionId = "suggest_fix"
    · rcases goSplitNColon2_shape act.value with ⟨x, hx⟩ | ⟨x, y, hxy⟩
      · simp [HandleInteractiveMessage, hba, hrev, hfix, hx]
      · rcases hatoi : goAtoi y with u | n
        · simp [HandleInteractiveMessage, hba, hrev, hfix, hxy, hatoi]
        rcases hfetch : env.fetchEnriched x n with u | d
        · simp [HandleInteractiveMessage, hba, hrev, hfix, hxy, hatoi, hfetch]
        rcases hsumm : env.summarize d with u | s
        · simp [HandleInteractiveMessage, hba, hrev, hfix, hxy, hatoi, hfetch, hsumm]
        by_cases hpo : env.postOk
          { channel := cb.channelId,
            text := ":wrench: *Suggested Fix:*\n```\n" ++ s.SuggestedFix ++ "\n```",
            threadTs := cb.messageTs } <;>
          simp [HandleInteractiveMessage, hba, hrev, hfix, hxy, hatoi, hfetch, hsumm, hpo]
    · simp [HandleInteractiveMessage, hba, hrev, hfix]
  case _ =>
    refine hcases _ (fun h1 => ?_) (fun h1 h2 => ?_) (fun h1 h2 h3 => ?_)
      (fun cb h1 h2 h3 => ?_) <;> subst_vars
    · simp [HandleInteractiveMessage]
    · simp [HandleInteractiveMessage]
    · simp [HandleInteractiveMessage]
    rcases hba : cb.blockActions with _ | ⟨act, rest⟩
    · simp [HandleInteractiveMessage, hba]
    by_cases hrev : act.actionId = "review_issue"
    · by_cases hpo : env.postOk
        { channel := cb.channelId,
          text := ":mag: Review thread started! (AI insights coming soon)",
          threadTs := cb.messageTs } <;>
        simp [HandleInteractiveMessage, hba, hrev, hpo]
    by_cases hfix : act.actionId = "suggest_fix"
    · rcases goSplitNColon2_shape act.value with ⟨x, hx⟩ | ⟨x, y, hxy⟩
      · simp [HandleInteractiveMessage, hba, hrev, hfix, hx]
      · rcases hatoi : goAtoi y with u | n
        · simp [HandleInteractiveMessage, hba, hrev, hfix, hxy, hatoi]
        rcases hfetch : env.fetchEnriched x n with u | d
        · simp [HandleInteractiveMessage, hba, hrev, hfix, hxy, hatoi, hfetch]
        rcases hsumm : env.summarize d with u | s
        · simp [HandleInteractiveMessage, hba, hrev, hfix, hxy, hatoi, hfetch, hsumm]
        by_cases hpo : env.postOk
          { channel := cb.channelId,
            text := ":wrench: *Suggested Fix:*\n```\n" ++ s.SuggestedFix ++ "\n```",
            threadTs := cb.messageTs } <;>
          simp [HandleInteractiveMessage, hba, hrev, hfix, hxy, hatoi, hfetch, hsumm, hpo]
    · simp [HandleInteractiveMessage, hba, hrev, hfix]
  case _ =>
    refine hcases _ (fun h1 => ?_) (fun h1 h2 => ?_) (fun h1 h2 h3 => ?_)
      (fun cb h1 h2 h3 => ?_) <;> subst_vars
    · simp [HandleInteractiveMessage]
    · simp [HandleInteractiveMessage]
    · simp [HandleInteractiveMessage]
    rcases hba : cb.blockActions with _ | ⟨act, rest⟩
    · simp [HandleInteractiveMessage, hba]
    by_cases hrev : act.actionId = "review_issue"
    · by_cases hpo : env.postOk
        { channel := cb.channelId,
          text := ":mag: Review thread started! (AI insights coming soon)",
          threadTs := cb.messageTs }
      · simp [HandleInteractiveMessage, hba, hrev, hpo]
      · simp only [HandleInteractiveMessage, hba, hrev, if_pos, if_neg hpo, reduceIte]
        intro _
        exact ⟨_, rfl, by simpa using hpo, Or.inl rfl⟩
    by_cases hfix : act.actionId = "suggest_fix"
    · rcases goSplitNColon2_shape act.value with ⟨x, hx⟩ | ⟨x, y, hxy⟩
      · simp [HandleInteractiveMessage, hba, hrev, hfix, hx]
      · rcases hatoi : goAtoi y with u | n
        · simp [HandleInteractiveMessage, hba, hrev, hfix, hxy, hatoi]
        rcases hfetch : env.fetchEnriched x n with u | d
        · simp [HandleInteractiveMessage, hba, hrev, hfix, hxy, hatoi, hfetch]
        rcases hsumm : env.summarize d with u | s
        · simp [HandleInteractiveMessage, hba, hrev, hfix, hxy, hatoi, hfetch, hsumm]
        by_cases hpo : env.postOk
          { channel := cb.channelId,
            text := ":wrench: *Suggested Fix:*\n```\n" ++ s.SuggestedFix ++ "\n```",
            threadTs := cb.messageTs }
        · simp [HandleInteractiveMessage, hba, hrev, hfix, hxy, hatoi, hfetch, hsumm, hpo]
        · simp only [HandleInteractiveMessage, hba, hrev, hfix, hxy, hatoi, hfetch, hsumm,
            if_neg hpo, reduceIte]
          intro _
          exact ⟨_, rfl, by simpa using hpo, Or.inr ⟨s.SuggestedFix, rfl⟩⟩
    · simp [HandleInteractiveMessage, hba, hrev, hfix]
  case _ =>
    rintro cb act rest rfl rfl rfl hcb hfix
    have hnotrev : ¬act.actionId = "review_issue" := by
      rw [hfix]
      decide
    refine ⟨?_, ?_, ?_, ?_⟩
    · intro hlen
      rcases goSplitNColon2_shape act.value with ⟨x, hx⟩ | ⟨x, y, hxy⟩
      · simp [HandleInteractiveMessage, hcb, hnotrev, hfix, hx]
      · rw [hxy] at hlen
        simp at hlen
    · intro repo numStr hs hatoi
      simp [HandleInteractiveMessage, hcb, hnotrev, hfix, hs, hatoi]
    · intro repo numStr n hs hatoi hfetch
      simp [HandleInteractiveMessage, hcb, hnotrev, hfix, hs, hatoi, hfetch]
    · intro repo numStr n d hs hatoi hfetch hsumm
      simp [HandleInteractiveMessage, hcb, hnotrev, hfix, hs, hatoi, hfetch, hsumm]

/-- C8 counterexample: with a parseable form and payload, a review click
whose acknowledgement post fails is answered with HTTP 500 — a status the
claim says is never returned. -/
theorem interactive_status_counterexample :
    (HandleInteractiveMessage postFailSlackEnv true true (some reviewCallback)).status = 500 ∧
    (HandleInteractiveMessage postFailSlackEnv true true (some reviewCallback)).status ≠ 200 ∧
    (HandleInteractiveMessage postFailSlackEnv true true (some reviewCallback)).status ≠ 400 := by
  refine ⟨?_, ?_, ?_⟩ <;> decide

/-- C8 witness: a successful suggest-fix round-trip answers 200; a missing
payload answers 400; a failed review-acknowledgement post yields 500 with
that acknowledgement as the failed post; and an enrichment failure is
answered 200 with the threaded warning. -/
theorem interactive_status_policy_witness :
    ((HandleInteractiveMessage sampleSlackEnv true true (some suggestFixCallback)).status = 200 ∨
     (HandleInteractiveMessage sampleSlackEnv true true (some suggestFixCallback)).status = 400 ∨
     (HandleInteractiveMessage sampleSlackEnv true true (some suggestFixCallback)).status = 500) ∧
    ((HandleInteractiveMessage sampleSlackEnv true false none).status = 400 ↔
      (true = false ∨ false = false ∨ (none : Option SlackCallback) = none)) ∧
    (∃ p, (HandleInteractiveMessage postFailSlackEnv true true (some reviewCallback)).posts = [p] ∧
      postFailSlackEnv.postOk p = false ∧
      (p.text = ":mag: Review thread started! (AI insights coming soon)" ∨
       ∃ fix, p.text = ":wrench: *Suggested Fix:*\n```\n" ++ fix ++ "\n```")) ∧
    ((HandleInteractiveMessage postFailSlackEnv true true (some suggestFixCallback)).status = 200 ∧
     (HandleInteractiveMessage postFailSlackEnv true true (some suggestFixCallback)).posts =
       [{ channel := "C1", text := ":warning: Could not fetch issue data for fix suggestion.",
          threadTs := "171.001" }]) :=
  ⟨(interactive_status_policy sampleSlackEnv true true (some suggestFixCallback)).1,
   (interactive_status_policy sampleSlackEnv true false none).2.1,
   (interactive_status_policy postFailSlackEnv true true (some reviewCallback)).2.2.1 (by decide),
   ((interactive_status_policy postFailSlackEnv true true (some suggestFixCallback)).2.2.2
     suggestFixCallback { actionId := "suggest_fix", value := "owner/repo:42" } []
     rfl rfl rfl rfl rfl).2.2.1 "owner/repo" "42" 42 (by decide) rfl rfl⟩

/-- The map lookup with `""`-fallback equals the total priority table. -/
theorem priority_lookup_eq_glyph (p : String) :
    (if goMapGet priorityEmojiMap p = "" then "📋" else goMapGet priorityEmojiMap p) =
      priorityGlyph p := by
  by_cases h1 : p = "high"
  · subst h1; decide
  by_cases h2 : p = "medium"
  · subst h2; decide
  by_cases h3 : p = "low"
  · subst h3; decide
  have e1 : (("high" : String) == p) = false := beq_eq_false_iff_ne.mpr (Ne.symm h1)
  have e2 : (("medium" : String) == p) = false := beq_eq_false_iff_ne.mpr (Ne.symm h2)
  have e3 : (("low" : String) == p) = false := beq_eq_false_iff_ne.mpr (Ne.symm h3)
  simp [goMapGet, priorityEmojiMap, List.find?, e1, e2, e3, priorityGlyph, h1, h2, h3]

/-- The map lookup with `""`-fallback equals the total category table. -/
theorem category_lookup_eq_glyph (c : String) :
    (if goMapGet categoryEmojiMap c = "" then "📋" else goMapGet categoryEmojiMap c) =
      categoryGlyph c := by
  by_cases h1 : c = "bug"
  · subst h1; decide
  by_cases h2 : c = "feature"
  · subst h2; decide
  by_cases h3 : c = "enhancement"
  · subst h3; decide
  by_cases h4 : c = "documentation"
  · subst h4; decide
  by_cases h5 : c = "security"
  · subst h5; decide
  by_cases h6 : c = "performance"
  · subst h6; decide
  by_cases h7 : c = "infrastructure"
  · subst h7; decide
  by_cases h8 : c = "other"
  · subst h8; decide
  have e1 : (("bug" : String) == c) = false := beq_eq_false_iff_ne.mpr (Ne.symm h1)
  have e2 : (("feature" : String) == c) = false := beq_eq_false_iff_ne.mpr (Ne.symm h2)
  have e3 : (("enhancement" : String) == c) = false := beq_eq_false_iff_ne.mpr (Ne.symm h3)
  have e4 : (("documentation" : String) == c) = false := beq_eq_false_iff_ne.mpr (Ne.symm h4)
  have e5 : (("security" : String) == c) = false := beq_eq_false_iff_ne.mpr (Ne.symm h5)
  have e6 : (("performance" : String) == c) = false := beq_eq_false_iff_ne.mpr (Ne.symm h6)
  have e7 : (("infrastructure" : String) == c) = false := beq_eq_false_iff_ne.mpr (Ne.symm h7)
  have e8 : (("other" : String) == c) = false := beq_eq_false_iff_ne.mpr (Ne.symm h8)
  simp [goMapGet, categoryEmojiMap, List.find?, e1, e2, e3, e4, e5, e6, e7, e8,
    categoryGlyph, h1, h2, h3, h4, h5, h6, h7, h8]

/-- C6: `GenerateSlackMessage` always produces exactly the six blocks of
the spec's notification document, in fixed order, with both buttons
carrying the `repo:number` value; the header text starts with the priority
glyph and contains the category glyph, each axis falling back to the
generic glyph independently. -/
theorem generateSlackMessage_matches_spec (d : IssueData) (s : IssueSummary) :
    GenerateSlackMessage d s = specNotificationBlocks d s ∧
    (GenerateSlackMessage d s).length = 6 ∧
    (∃ t bs, GenerateSlackMessage d s = SlackBlock.header (priorityGlyph s.Priority ++ t) :: bs) ∧
    (∃ u v bs, GenerateSlackMessage d s =
      SlackBlock.header (u ++ (categoryGlyph s.Category ++ v)) :: bs) := by
  have hmain : GenerateSlackMessage d s = specNotificationBlocks d s := by
    simp only [GenerateSlackMessage, specNotificationBlocks,
      priority_lookup_eq_glyph, category_lookup_eq_glyph]
    rcases hai : s.ActionItems.getD [] with _ | ⟨x, xs⟩
    · simp [hai]
      rfl
    · simp [hai]
  refine ⟨hmain, by rw [hmain]; rfl, ?_, ?_⟩
  · refine ⟨" " ++ (categoryGlyph s.Category ++ (" Issue #" ++ (toString d.issue.number ++
      (": " ++ s.Title)))), (specNotificationBlocks d s).tail, ?_⟩
    rw [hmain]
    simp only [specNotificationBlocks, String.append_assoc, List.tail_cons]
  · refine ⟨priorityGlyph s.Priority ++ " ", " Issue #" ++ (toString d.issue.number ++
      (": " ++ s.Title)), (specNotificationBlocks d s).tail, ?_⟩
    rw [hmain]
    simp only [specNotificationBlocks, String.append_assoc, List.tail_cons]

/-- The defaulting block never touches the mandatory fields and fills
`ActionItems`/`CodeContext` exactly when they are still zero. -/
theorem applySummaryDefaults_fields (m : IssueSummary) :
    (applySummaryDefaults m).Title = m.Title ∧
    (applySummaryDefaults m).Summary = m.Summary ∧
    (applySummaryDefaults m).ActionItems =
      (if m.ActionItems = none then some [] else m.ActionItems) ∧
    (applySummaryDefaults m).CodeContext =
      (if m.CodeContext = "" then "No specific code context available" else m.CodeContext) := by
  unfold applySummaryDefaults
  by_cases h1 : m.Priority = "" <;>
    simp only [h1, if_true, if_false, reduceIte] <;>
  by_cases h2 : m.Category = "" <;>
    simp only [h2, if_true, if_false, reduceIte] <;>
  by_cases h3 : m.ActionItems = none <;>
    simp only [h3, if_true, if_false, reduceIte] <;>
  by_cases h4 : m.CodeContext = "" <;>
    simp only [h4, if_true, if_false, reduceIte] <;>
  by_cases h5 : m.Confidence = 0 <;>
    simp only [h5, if_true, if_false, reduceIte] <;>
  by_cases h6 : m.SuggestedFix = "" <;>
    simp [h6, h1, h2, h3, h4, h5]

/-- C3: parsing the minimal response `{"title":"T","summary":"S"}` succeeds
with priority `medium`, category `other`, empty action items, the
code-context placeholder, confidence 0.5 and the suggested-fix placeholder;
and defaults are only ever applied to summaries whose mandatory title and
summary are non-empty. -/
theorem parse_minimal_response_defaults :
    parseSummaryResponse "\x7b\"title\":\"T\",\"summary\":\"S\"\x7d" =
      .ok { Title := "T", Summary := "S", Priority := "medium", Category := "other",
            ActionItems := some [], CodeContext := "No specific code context available",
            Confidence := 1 / 2, SuggestedFix := "No fix suggestion provided." } ∧
    (∀ resp s, parseSummaryResponse resp = .ok s → s.Title ≠ "" ∧ s.Summary ≠ "") := by
  constructor
  · rfl
  · intro resp s h
    cases hj : goJsonParse (cleanResponse resp) with
    | none => simp [parseSummaryResponse, hj] at h
    | some v =>
        cases hu : unmarshalIssueSummary v with
        | error e => simp [parseSummaryResponse, hj, hu] at h
        | ok m =>
            by_cases hcond : m.Title = "" ∨ m.Summary = ""
            · simp [parseSummaryResponse, hj, hu, hcond] at h
            · simp only [parseSummaryResponse, hj, hu, if_neg hcond, Except.ok.injEq] at h
              push_neg at hcond
              rw [← h]
              rw [(applySummaryDefaults_fields m).1, (applySummaryDefaults_fields m).2.1]
              exact hcond

/-- C3 witness: the parsed minimal response indeed has a non-empty title
and summary. -/
theorem parse_minimal_response_defaults_witness :
    parseSummaryResponse "\x7b\"title\":\"T\",\"summary\":\"S\"\x7d" =
      .ok { Title := "T", Summary := "S", Priority := "medium", Category := "other",
            ActionItems := some [], CodeContext := "No specific code context available",
            Confidence := 1 / 2, SuggestedFix := "No fix suggestion provided." } ∧
    ("T" : String) ≠ "" ∧ ("S" : String) ≠ "" :=
  ⟨parse_minimal_response_defaults.1,
   parse_minimal_response_defaults.2 "\x7b\"title\":\"T\",\"summary\":\"S\"\x7d" _
     parse_minimal_response_defaults.1⟩

/-- C4: whenever the cleaned response decodes and unmarshals to a summary
whose title or summary is absent or empty, `parseSummaryResponse` is a hard
failure — no defaulted summary is produced. -/
theorem parse_missing_mandatory_fails (resp : String) (v : JsonVal) (m : IssueSummary)
    (hj : goJsonParse (cleanResponse resp) = some v)
    (hu : unmarshalIssueSummary v = .ok m)
    (hm : m.Title = "" ∨ m.Summary = "") :
    parseSummaryResponse resp = .error "missing required fields in AI response" := by
  simp [parseSummaryResponse, hj, hu, hm]

/-- C4 witness: a response carrying several valid optional fields but no
title is rejected. -/
theorem parse_missing_mandatory_fails_witness :
    goJsonParse (cleanResponse
        "\x7b\"summary\":\"S\",\"priority\":\"high\",\"category\":\"bug\"\x7d") =
      some (.obj [("summary", .str "S"), ("priority", .str "high"),
        ("category", .str "bug")]) ∧
    parseSummaryResponse
        "\x7b\"summary\":\"S\",\"priority\":\"high\",\"category\":\"bug\"\x7d" =
      .error "missing required fields in AI response" := by
  have hj : goJsonParse (cleanResponse
      "\x7b\"summary\":\"S\",\"priority\":\"high\",\"category\":\"bug\"\x7d") =
      some (.obj [("summary", .str "S"), ("priority", .str "high"),
        ("category", .str "bug")]) := by rfl
  exact ⟨hj, parse_missing_mandatory_fails _ _
    { Title := "", Summary := "S", Priority := "high", Category := "bug",
      ActionItems := none, CodeContext := "", Confidence := 0, SuggestedFix := "" }
    hj rfl (Or.inl rfl)⟩


/-- Assignments through keys not resolving to `ActionItems` or
`CodeContext` leave those fields untouched. -/
theorem setSummaryField_preserves (m : IssueSummary) (k : String) (v : JsonVal)
    (m2 : IssueSummary)
    (hk : fieldForKey k ≠ some .actionItems ∧ fieldForKey k ≠ some .codeContext)
    (h : setSummaryField m k v = .ok m2) :
    m2.ActionItems = m.ActionItems ∧ m2.CodeContext = m.CodeContext := by
  unfold setSummaryField at h
  rcases hf : fieldForKey k with _ | f
  · rw [hf] at h
    simp only [Except.ok.injEq] at h
    rw [← h]
    exact ⟨rfl, rfl⟩
  · rw [hf] at h
    rw [hf] at hk
    cases f <;> cases v <;> simp_all <;> (rw [← h]; exact ⟨rfl, rfl⟩)

/-- Every schema key resolves away from `ActionItems` and `CodeContext`:
the snake_case keys `action_items` and `code_context` match no field. -/
theorem schemaKey_not_ai_cc (k : String) (hk : k ∈ modelSchemaKeys) :
    fieldForKey k ≠ some .actionItems ∧ fieldForKey k ≠ some .codeContext := by
  simp only [modelSchemaKeys, List.mem_cons, List.not_mem_nil, or_false] at hk
  rcases hk with rfl | rfl | rfl | rfl | rfl | rfl | rfl | rfl <;> exact ⟨by decide, by decide⟩

/-- Folding schema-keyed members over the zero summary never populates
`ActionItems` or `CodeContext`. -/
theorem unmarshal_fold_preserves (fs : List (String × JsonVal)) :
    ∀ m0 m : IssueSummary,
      (∀ kv ∈ fs, kv.1 ∈ modelSchemaKeys) →
      List.foldlM (fun m kv => setSummaryField m kv.1 kv.2) m0 fs = .ok m →
      m.ActionItems = m0.ActionItems ∧ m.CodeContext = m0.CodeContext := by
  induction fs with
  | nil =>
      intro m0 m _ h
      have h2 : (Except.ok m0 : Except Unit IssueSummary) = Except.ok m := h
      simp only [Except.ok.injEq] at h2
      rw [← h2]
      exact ⟨rfl, rfl⟩
  | cons kv rest ih =>
      intro m0 m hks h
      rw [List.foldlM_cons] at h
      rcases h1 : setSummaryField m0 kv.1 kv.2 with e | m1 <;> rw [h1] at h
      · have h2 : (Except.error e : Except Unit IssueSummary) = Except.ok m := h
        simp at h2
      · have h2 : List.foldlM (fun m kv => setSummaryField m kv.1 kv.2) m1 rest =
            Except.ok m := h
        have hhead := setSummaryField_preserves m0 kv.1 kv.2 m1
          (schemaKey_not_ai_cc kv.1 (hks kv (List.mem_cons_self kv rest))) h1
        have hrest := ih m1 m (fun x hx => hks x (List.mem_cons_of_mem kv hx)) h2
        exact ⟨hrest.1.trans hhead.1, hrest.2.trans hhead.2⟩

/-- C10: only `SuggestedFix` carries a json tag, so the snake_case keys
`action_items` and `code_context` requested by the prompt schema bind to no
struct field; a response using only schema keys therefore yields the
defaults — empty action items and the code-context placeholder — no matter
what values those two keys supplied. -/
theorem parse_discards_snake_case_keys :
    fieldForKey "action_items" = none ∧
    fieldForKey "code_context" = none ∧
    fieldForKey "suggested_fix" = some .suggestedFix ∧
    ∀ resp fs s,
      goJsonParse (cleanResponse resp) = some (.obj fs) →
      (∀ kv ∈ fs, kv.1 ∈ modelSchemaKeys) →
      parseSummaryResponse resp = .ok s →
      s.ActionItems = some [] ∧ s.CodeContext = "No specific code context available" := by
  refine ⟨by decide, by decide, by decide, ?_⟩
  intro resp fs s hj hks hp
  rcases hu : unmarshalIssueSummary (.obj fs) with e | m
  · simp [parseSummaryResponse, hj, hu] at hp
  · simp only [parseSummaryResponse, hj, hu] at hp
    by_cases hcond : m.Title = "" ∨ m.Summary = ""
    · simp [hcond] at hp
    · rw [if_neg hcond] at hp
      simp only [Except.ok.injEq] at hp
      have hzero := unmarshal_fold_preserves fs zeroSummary m hks hu
      rw [← hp]
      rw [(applySummaryDefaults_fields m).2.2.1, (applySummaryDefaults_fields m).2.2.2]
      rw [hzero.1, hzero.2]
      exact ⟨by rfl, by rfl⟩

/-- C10 witness: a schema-keyed response supplying `action_items` and
`code_context` parses successfully with those values discarded. -/
theorem parse_discards_snake_case_keys_witness :
    goJsonParse (cleanResponse
        "\x7b\"title\":\"T\",\"summary\":\"S\",\"action_items\":[\"supplied\"],\"code_context\":\"supplied\"\x7d") =
      some (.obj [("title", .str "T"), ("summary", .str "S"),
        ("action_items", .arr [.str "supplied"]), ("code_context", .str "supplied")]) ∧
    ∃ s, parseSummaryResponse
        "\x7b\"title\":\"T\",\"summary\":\"S\",\"action_items\":[\"supplied\"],\"code_context\":\"supplied\"\x7d" =
        .ok s ∧
      s.ActionItems = some [] ∧ s.CodeContext = "No specific code context available" := by
  have hp : parseSummaryResponse
      "\x7b\"title\":\"T\",\"summary\":\"S\",\"action_items\":[\"supplied\"],\"code_context\":\"supplied\"\x7d" =
      .ok { Title := "T", Summary := "S", Priority := "medium", Category := "other",
            ActionItems := some [], CodeContext := "No specific code context available",
            Confidence := 1 / 2, SuggestedFix := "No fix suggestion provided." } := by rfl
  refine ⟨by rfl, _, hp, ?_⟩
  exact parse_discards_snake_case_keys.2.2.2
    "\x7b\"title\":\"T\",\"summary\":\"S\",\"action_items\":[\"supplied\"],\"code_context\":\"supplied\"\x7d"
    [("title", .str "T"), ("summary", .str "S"),
     ("action_items", .arr [.str "supplied"]), ("code_context", .str "supplied")] _
    (by rfl) (by decide) hp

/-- Big-endian byte renderings are bytes. -/
theorem toBytesBE_lt (n : Nat) : ∀ v, ∀ b ∈ toBytesBE n v, b < 256 := by
  induction n with
  | zero => simp [toBytesBE]
  | succ n ih =>
      intro v b hb
      simp only [toBytesBE, List.mem_append, List.mem_singleton] at hb
      rcases hb with h | h
      · exact ih (v / 256) b h
      · subst h
        exact Nat.mod_lt _ (by omega)

/-- SHA-256 outputs are bytes. -/
theorem sha256Bytes_lt (msg : List Nat) : ∀ b ∈ sha256Bytes msg, b < 256 := by
  intro b hb
  simp only [sha256Bytes, List.mem_flatMap] at hb
  obtain ⟨w, _, hbw⟩ := hb
  exact toBytesBE_lt 4 w b hbw

/-- HMAC-SHA256 outputs are bytes. -/
theorem hmacSHA256_lt (key msg : List Nat) : ∀ b ∈ hmacSHA256 key msg, b < 256 := by
  intro b hb
  exact sha256Bytes_lt _ b hb

/-- `hexDigit` is injective below 16. -/
theorem hexDigit_inj (a b : Nat) (ha : a < 16) (hb : b < 16)
    (h : hexDigit a = hexDigit b) : a = b := by
  unfold hexDigit at h
  split_ifs at h <;> omega

/-- Hex encoding is injective on byte lists. -/
theorem hexEncodeBytes_inj : ∀ xs ys : List Nat,
    (∀ x ∈ xs, x < 256) → (∀ y ∈ ys, y < 256) →
    hexEncodeBytes xs = hexEncodeBytes ys → xs = ys := by
  intro xs
  induction xs with
  | nil =>
      intro ys _ _ h
      cases ys with
      | nil => rfl
      | cons y ys => simp [hexEncodeBytes] at h
  | cons x xs ih =>
      intro ys hx hy h
      cases ys with
      | nil => simp [hexEncodeBytes] at h
      | cons y ys =>
          simp only [hexEncodeBytes, List.flatMap_cons, List.cons_append, List.nil_append,
            List.cons.injEq] at h
          obtain ⟨h1, h2, h3⟩ := h
          have hxb := hx x (List.mem_cons_self x xs)
          have hyb := hy y (List.mem_cons_self y ys)
          have e1 : x / 16 = y / 16 :=
            hexDigit_inj _ _ (by omega) (by omega) h1
          have e2 : x % 16 = y % 16 :=
            hexDigit_inj _ _ (by omega) (by omega) h2
          have exy : x = y := by omega
          have hrest : xs = ys :=
            ih ys (fun a ha => hx a (List.mem_cons_of_mem x ha))
              (fun a ha => hy a (List.mem_cons_of_mem y ha)) h3
          rw [exy, hrest]

/-- C1 (amended): with an empty configured secret `verifySignature` accepts
everything; with a non-empty secret it accepts exactly the header
`sha256=` followed by the lowercase hex HMAC-SHA256 of the body under that
secret, so a header built from a different secret is rejected exactly when
that secret's HMAC differs from the configured secret's HMAC (HMAC-key
equivalences such as trailing zero bytes are accepted). -/
theorem verifySignature_characterization (secret payload sig : List Nat) :
    (secret = [] → verifySignature secret payload sig = true) ∧
    (secret ≠ [] → (verifySignature secret payload sig = true ↔
      sig = sha256Tag ++ hexEncodeBytes (hmacSHA256 secret payload))) ∧
    (∀ secret2, secret ≠ [] →
      hmacSHA256 secret2 payload ≠ hmacSHA256 secret payload →
      verifySignature secret payload
        (sha256Tag ++ hexEncodeBytes (hmacSHA256 secret2 payload)) = false) := by
  have hchar : ∀ sg : List Nat, secret ≠ [] → (verifySignature secret payload sg = true ↔
      sg = sha256Tag ++ hexEncodeBytes (hmacSHA256 secret payload)) := by
    intro sg hne
    constructor
    · intro hv
      unfold verifySignature at hv
      rw [if_neg hne] at hv
      by_cases hp : sha256Tag.isPrefixOf sg
      · rw [if_pos hp] at hv
        have hdrop : hexEncodeBytes (hmacSHA256 secret payload) = sg.drop 7 :=
          of_decide_eq_true hv
        obtain ⟨t, ht⟩ := List.isPrefixOf_iff_prefix.mp hp
        have h7 : sg.drop 7 = t := by
          rw [← ht]
          exact List.drop_left sha256Tag t
        rw [← ht, h7.symm, ← hdrop]
      · rw [if_neg hp] at hv
        exact absurd hv (by simp)
    · intro hs
      subst hs
      unfold verifySignature
      rw [if_neg hne,
        if_pos (List.isPrefixOf_iff_prefix.mpr (List.prefix_append sha256Tag _))]
      have hd : List.drop 7 (sha256Tag ++ hexEncodeBytes (hmacSHA256 secret payload)) =
          hexEncodeBytes (hmacSHA256 secret payload) := List.drop_left sha256Tag _
      rw [hd]
      exact decide_eq_true rfl
  refine ⟨fun h => by simp [verifySignature, h], hchar sig, ?_⟩
  intro secret2 hne hdiff
  cases hv : verifySignature secret payload
      (sha256Tag ++ hexEncodeBytes (hmacSHA256 secret2 payload)) with
  | false => rfl
  | true =>
      have heq := (hchar _ hne).mp hv
      have hhex := List.append_cancel_left heq
      have hmacs := hexEncodeBytes_inj _ _ (hmacSHA256_lt secret2 payload)
        (hmacSHA256_lt secret payload) hhex
      exact absurd hmacs hdiff

set_option maxRecDepth 10000 in
set_option maxHeartbeats 4000000 in
/-- C1 counterexample: the secrets `"a"` and `"a\x00"` differ, yet a header
carrying the HMAC computed with the second is accepted under the first —
HMAC-SHA256 zero-pads short keys to its 64-byte block, so distinct secrets
can share every MAC and the claimed rejection of "any different secret"
fails. -/
theorem verifySignature_different_secret_accepted :
    ([97] : List Nat) ≠ [97, 0] ∧
    verifySignature [97] [104, 105]
      (sha256Tag ++ hexEncodeBytes (hmacSHA256 [97, 0] [104, 105])) = true :=
  ⟨by decide, by decide⟩

set_option maxRecDepth 10000 in
set_option maxHeartbeats 4000000 in
/-- C1 witness: an empty secret accepts an arbitrary header, a matching
HMAC header is accepted, and a header under a secret with a different HMAC
is rejected. -/
theorem verifySignature_characterization_witness :
    verifySignature [] [1, 2] [3] = true ∧
    verifySignature [5, 6] [7] (sha256Tag ++ hexEncodeBytes (hmacSHA256 [5, 6] [7])) = true ∧
    verifySignature [5, 6] [7] (sha256Tag ++ hexEncodeBytes (hmacSHA256 [9] [7])) = false :=
  ⟨(verifySignature_characterization [] [1, 2] [3]).1 rfl,
   ((verifySignature_characterization [5, 6] [7]
      (sha256Tag ++ hexEncodeBytes (hmacSHA256 [5, 6] [7]))).2.1 (by decide)).mpr rfl,
   (verifySignature_characterization [5, 6] [7] []).2.2 [9] (by decide) (by decide)⟩
